import Mathlib

/-!
A shallow embedding of the gemini-mcp-server navigation and evidence-capture
engine (`src/mcp_handler.ts`), together with theorems settling the spec's
claims about it.

Modelling conventions:
* Machine-level / external effects (Playwright browser primitives, Supabase
  storage, the Gemini client) are driven by an oracle environment `WEnv`:
  each fallible primitive reads a `Bool` outcome from `WEnv.oracle` at a
  strictly increasing call counter; `page.url()` reads `WEnv.urlAt`.
  `page.evaluate` of a constant script, `page.waitForTimeout`,
  `keyboard.press` and `page.title()` are modelled as non-failing.
* Execution produces an explicit event trace (`Ev`) recording the observable
  interactions; claims about logging/reporting/teardown are stated on traces.
* `JSON.parse` is modelled by a fuel-based JSON parser (`parseJson`); JS
  truthiness of optional string/number fields is modelled by `truthyS` /
  `truthyN`; `Buffer.from(s).toString('base64')` by `b64Encode` over UTF-8
  bytes; `new URL(u).hostname` by a simplified WHATWG host extraction
  (`hostOf`) covering scheme://[userinfo@]host[:port]/... shapes.
-/

/-! ## Characters and small string utilities -/

/-- The backtick character (written by code point to keep sources plain). -/
def btick : Char := '\x60'

/-- JSON / JS whitespace used by `skipWs` and the model of `String.trim`. -/
def isWsChar (c : Char) : Bool :=
  c = ' ' || c = '\n' || c = '\t' || c = '\r'

/-- Drop leading whitespace. -/
def skipWs (s : List Char) : List Char := s.dropWhile isWsChar

/-- Model of JS `String.prototype.trim` (restricted to ASCII whitespace). -/
def jsTrimL (s : List Char) : List Char :=
  ((s.dropWhile isWsChar).reverse.dropWhile isWsChar).reverse

/-- ASCII alphanumeric test, as used by the `[^a-zA-Z0-9]` regex class. -/
def isAlnumAscii (c : Char) : Bool :=
  (('a' ≤ c && c ≤ 'z') || ('A' ≤ c && c ≤ 'Z') || ('0' ≤ c && c ≤ '9'))

/-- ASCII decimal digit test. -/
def isDigitAscii (c : Char) : Bool := '0' ≤ c && c ≤ '9'

/-! ## Screenshot filename derivation (mcp_handler.ts lines 51-66) -/

/-- `timestamp.replace(/[:.]/g, '-')`. -/
def sanitizeTs (t : List Char) : List Char :=
  t.map (fun c => if c = ':' || c = '.' then '-' else c)

/-- `hostname.replace(/[^a-zA-Z0-9]/g, '-')`. -/
def slugify (h : List Char) : List Char :=
  h.map (fun c => if isAlnumAscii c then c else '-')

/-- Valid URL scheme start: an ASCII letter. -/
def isSchemeStart (c : Char) : Bool :=
  ('a' ≤ c && c ≤ 'z') || ('A' ≤ c && c ≤ 'Z')

/-- Characters allowed after the first character of a URL scheme. -/
def isSchemeChar (c : Char) : Bool :=
  isSchemeStart c || isDigitAscii c || c = '+' || c = '-' || c = '.'

/-- Modelled from `new URL(url).hostname` (simplified WHATWG parsing):
requires `scheme://`, takes the authority up to the first `/`, `?` or `#`,
drops any `userinfo@` prefix and a `:port` suffix, and lowercases the
result; a missing scheme or an empty authority is a parse failure (the JS
constructor throws). -/
def hostOf (u : List Char) : Option (List Char) :=
  match u with
  | [] => none
  | c :: rest =>
    if isSchemeStart c then
      let afterScheme := rest.dropWhile isSchemeChar
      match afterScheme with
      | ':' :: '/' :: '/' :: tail =>
        let auth := tail.takeWhile (fun ch => ch ≠ '/' && ch ≠ '?' && ch ≠ '#')
        if auth.isEmpty then none
        else
          let hostPort :=
            if auth.contains '@' then (auth.reverse.takeWhile (· ≠ '@')).reverse
            else auth
          let host := hostPort.takeWhile (· ≠ ':')
          if host.isEmpty then none else some (host.map Char.toLower)
      | _ => none
    else none

/-- UTF-8 bytes of one scalar value (as `Nat`s below 256). -/
def utf8Bytes (c : Char) : List Nat :=
  let n := c.toNat
  if n < 0x80 then [n]
  else if n < 0x800 then [0xC0 + n / 64, 0x80 + n % 64]
  else if n < 0x10000 then [0xE0 + n / 4096, 0x80 + n / 64 % 64, 0x80 + n % 64]
  else [0xF0 + n / 262144, 0x80 + n / 4096 % 64, 0x80 + n / 64 % 64, 0x80 + n % 64]

/-- UTF-8 bytes of a string, modelling `Buffer.from(s)`. -/
def strBytes (s : List Char) : List Nat := (s.map utf8Bytes).flatten

/-- The base64 alphabet. -/
def b64Alphabet : List Char :=
  "ABCDEFGHIJKLMNOPQRSTUVWXYZabcdefghijklmnopqrstuvwxyz0123456789+/".toList

/-- Base64 digit for a 6-bit value. -/
def b64Char (n : Nat) : Char := b64Alphabet.getD n 'A'

/-- Encode one chunk of at most three bytes into four base64 characters. -/
def b64Chunk : List Nat → List Char
  | [a] => [b64Char (a / 4), b64Char (a % 4 * 16), '=', '=']
  | [a, b] => [b64Char (a / 4), b64Char (a % 4 * 16 + b / 16), b64Char (b % 16 * 4), '=']
  | [a, b, c] =>
    [b64Char (a / 4), b64Char (a % 4 * 16 + b / 16), b64Char (b % 16 * 4 + c / 64),
      b64Char (c % 64)]
  | _ => []

/-- Split a byte list into chunks of three (last chunk possibly shorter). -/
def chunk3 : List Nat → List (List Nat)
  | [] => []
  | a :: b :: c :: rest => [a, b, c] :: chunk3 rest
  | l => [l]

/-- Standard base64 encoding, modelling `Buffer.toString('base64')`. -/
def b64Encode (bs : List Nat) : List Char := ((chunk3 bs).map b64Chunk).flatten

/-- `Buffer.from(prompt).toString('base64').substring(0, 20)`. -/
def promptHash (prompt : List Char) : List Char :=
  (b64Encode (strBytes prompt)).take 20

/-- The optional `_<domain slug>` filename fragment: present only when a
truthy URL is supplied and parses (`if (url) try { ... } catch`). -/
def domainFragment (url : Option String) : List Char :=
  match url with
  | none => []
  | some u =>
    if u = "" then []
    else
      match hostOf u.data with
      | none => []
      | some h => '_' :: slugify h

/-- `screenshot_<timestamp with : and . replaced>_<domain>_<hash>.png`
(mcp_handler.ts line 66), over character lists. -/
def screenshotFilenameL (now : List Char) (url : Option String) (prompt : List Char) :
    List Char :=
  "screenshot_".toList ++ sanitizeTs now ++ domainFragment url ++
    '_' :: promptHash prompt ++ ".png".toList

/-- String-level wrapper for the filename derivation. -/
def screenshotFilename (now : String) (url : Option String) (prompt : String) : String :=
  ⟨screenshotFilenameL now.data url prompt.data⟩

/-! ## JSON values and a fuel-based parser (model of `JSON.parse`) -/

/-- JSON values; numbers are kept exactly as mantissa and decimal exponent. -/
inductive JVal where
  | null
  | bool (b : Bool)
  | num (m : Int) (e : Int)
  | str (s : String)
  | arr (xs : List JVal)
  | obj (fs : List (String × JVal))
deriving Repr

/-- Hexadecimal digit value, computed on the code point. -/
def hexVal (c : Char) : Option Nat :=
  let n := c.toNat
  if n ≥ 48 ∧ n ≤ 57 then some (n - 48)
  else if n ≥ 97 ∧ n ≤ 102 then some (n - 87)
  else if n ≥ 65 ∧ n ≤ 70 then some (n - 55)
  else none

/-- Parse the remainder of a JSON string literal (after the opening quote).
Surrogate pairs in `\u` escapes are not recombined (model simplification). -/
def parseStrRest : Nat → List Char → Option (List Char × List Char)
  | 0, _ => none
  | _ + 1, [] => none
  | _ + 1, '"' :: rest => some ([], rest)
  | fuel + 1, '\\' :: esc =>
    match esc with
    | 'n' :: r => (parseStrRest fuel r).map (fun p => ('\n' :: p.1, p.2))
    | 't' :: r => (parseStrRest fuel r).map (fun p => ('\t' :: p.1, p.2))
    | 'r' :: r => (parseStrRest fuel r).map (fun p => ('\r' :: p.1, p.2))
    | 'b' :: r => (parseStrRest fuel r).map (fun p => ('\x08' :: p.1, p.2))
    | 'f' :: r => (parseStrRest fuel r).map (fun p => ('\x0c' :: p.1, p.2))
    | '"' :: r => (parseStrRest fuel r).map (fun p => ('"' :: p.1, p.2))
    | '\\' :: r => (parseStrRest fuel r).map (fun p => ('\\' :: p.1, p.2))
    | '/' :: r => (parseStrRest fuel r).map (fun p => ('/' :: p.1, p.2))
    | 'u' :: h1 :: h2 :: h3 :: h4 :: r =>
      match hexVal h1, hexVal h2, hexVal h3, hexVal h4 with
      | some a, some b, some c, some d =>
        (parseStrRest fuel r).map
          (fun p => (Char.ofNat (a * 4096 + b * 256 + c * 16 + d) :: p.1, p.2))
      | _, _, _, _ => none
    | _ => none
  | fuel + 1, c :: rest => (parseStrRest fuel rest).map (fun p => (c :: p.1, p.2))

/-- Digits to a natural number. -/
def digitsToNat (ds : List Char) : Nat :=
  ds.foldl (fun a c => a * 10 + (c.toNat - '0'.toNat)) 0

/-- Parse a JSON number (sign, integer part, optional fraction and exponent);
leading-zero checks of strict JSON are omitted (model simplification). -/
def parseNum (s : List Char) : Option (JVal × List Char) :=
  let signed : Bool × List Char := match s with | '-' :: r => (true, r) | _ => (false, s)
  let neg := signed.1
  let ds := signed.2.takeWhile isDigitAscii
  let s1 := signed.2.dropWhile isDigitAscii
  if ds.isEmpty then none
  else
    let fracPart : Option (List Char × List Char) :=
      match s1 with
      | '.' :: r =>
        let fs := r.takeWhile isDigitAscii
        if fs.isEmpty then none else some (fs, r.dropWhile isDigitAscii)
      | _ => some ([], s1)
    match fracPart with
    | none => none
    | some (fs, s2) =>
      let expPart : Option (Int × List Char) :=
        match s2 with
        | 'e' :: r | 'E' :: r =>
          let esigned : Bool × List Char :=
            match r with
            | '-' :: r2 => (true, r2)
            | '+' :: r2 => (false, r2)
            | _ => (false, r)
          let es := esigned.2.takeWhile isDigitAscii
          if es.isEmpty then none
          else
            let ev : Int := Int.ofNat (digitsToNat es)
            some (if esigned.1 then -ev else ev, esigned.2.dropWhile isDigitAscii)
        | _ => some (0, s2)
      match expPart with
      | none => none
      | some (ex, s3) =>
        let mAbs : Nat := digitsToNat ds * 10 ^ fs.length + digitsToNat fs
        let m : Int := if neg then -(Int.ofNat mAbs) else Int.ofNat mAbs
        some (.num m (ex - Int.ofNat fs.length), s3)

mutual

/-- Fuel-based recursive-descent JSON value parser. -/
def parseVal : Nat → List Char → Option (JVal × List Char)
  | 0, _ => none
  | fuel + 1, s =>
    match skipWs s with
    | 'n' :: 'u' :: 'l' :: 'l' :: r => some (.null, r)
    | 't' :: 'r' :: 'u' :: 'e' :: r => some (.bool true, r)
    | 'f' :: 'a' :: 'l' :: 's' :: 'e' :: r => some (.bool false, r)
    | '"' :: r => (parseStrRest fuel r).map (fun p => (.str ⟨p.1⟩, p.2))
    | '[' :: r =>
      (match skipWs r with
       | ']' :: r2 => some (.arr [], r2)
       | _ => (parseItems fuel r).map (fun p => (.arr p.1, p.2)))
    | '\x7b' :: r =>
      (match skipWs r with
       | '\x7d' :: r2 => some (.obj [], r2)
       | _ => (parseFields fuel r).map (fun p => (.obj p.1, p.2)))
    | t => parseNum t

/-- Comma-separated array items followed by `]`. -/
def parseItems : Nat → List Char → Option (List JVal × List Char)
  | 0, _ => none
  | fuel + 1, s =>
    match parseVal fuel s with
    | none => none
    | some (j, r) =>
      match skipWs r with
      | ',' :: r2 => (parseItems fuel r2).map (fun p => (j :: p.1, p.2))
      | ']' :: r2 => some ([j], r2)
      | _ => none

/-- Comma-separated `"key": value` members followed by the closing brace. -/
def parseFields : Nat → List Char → Option (List (String × JVal) × List Char)
  | 0, _ => none
  | fuel + 1, s =>
    match skipWs s with
    | '"' :: r =>
      match parseStrRest fuel r with
      | none => none
      | some (k, r2) =>
        match skipWs r2 with
        | ':' :: r3 =>
          match parseVal fuel r3 with
          | none => none
          | some (j, r4) =>
            match skipWs r4 with
            | ',' :: r5 => (parseFields fuel r5).map (fun p => ((⟨k⟩, j) :: p.1, p.2))
            | '\x7d' :: r5 => some ([(⟨k⟩, j)], r5)
            | _ => none
        | _ => none
    | _ => none

end

/-- Model of `JSON.parse`: parse one value and require only trailing
whitespace after it. -/
def parseJson (s : String) : Option JVal :=
  match parseVal (s.data.length + 1) s.data with
  | some (j, rest) => if (skipWs rest).isEmpty then some j else none
  | none => none

/-! ## Code-fence stripping (`cleanResponse.replace(/```json\n?|\n?```/g, '')`,
mcp_handler.ts line 545) -/

/-- The literal `\x60\x60\x60json` (triple backtick + "json"). -/
def fenceJson : List Char := [btick, btick, btick, 'j', 's', 'o', 'n']

/-- The literal triple backtick. -/
def fence3 : List Char := [btick, btick, btick]

/-- One attempted regex match at the current position, mirroring the
alternation `BBBjson\n? | \n?BBB` (B a backtick) with greedy `\n?`:
returns the remainder after the match, or `none`. -/
def fenceMatch (s : List Char) : Option (List Char) :=
  if fenceJson.isPrefixOf s then
    match s.drop 7 with
    | '\n' :: r => some r
    | r => some r
  else
    match s with
    | '\n' :: t => if fence3.isPrefixOf t then some (t.drop 3) else
        if fence3.isPrefixOf s then some (s.drop 3) else none
    | _ => if fence3.isPrefixOf s then some (s.drop 3) else none

/-- Global regex replacement by the empty string: scan left to right,
resuming after each match. -/
def stripFencesGo : Nat → List Char → List Char
  | 0, s => s
  | fuel + 1, s =>
    match fenceMatch s with
    | some r => stripFencesGo fuel r
    | none =>
      match s with
      | [] => []
      | c :: cs => c :: stripFencesGo fuel cs

/-- Strip all code-fence markers from a character list. -/
def stripFences (s : List Char) : List Char := stripFencesGo s.length s

/-! ## Navigation-plan analysis (mcp_handler.ts lines 476-571) -/

/-- Outcome of the plan-generation call to the reasoning service
(`model.generateContent(analysisPrompt)`). -/
inductive GenOutcome where
  | fail
  | noResp
  | reply (s : String)

/-- The raw options object produced by `analyzeNavigationNeeds`: fields as
returned by `JSON.parse`, with only the shape checks of lines 559-566. -/
structure RawNavOptions where
  clickSelectors : Option (List JVal) := none
  formInputs : Option (List JVal) := none
  scrollToBottom : Option Bool := none
  waitForSelectors : Option (List JVal) := none
  followLinks : Option (List JVal) := none
  navigationSteps : Option (List JVal) := none
deriving Repr

/-- Last-binding-wins field lookup, matching JS object semantics for
duplicate keys in `JSON.parse`. -/
def jfield (j : JVal) (k : String) : Option JVal :=
  match j with
  | .obj fs => fs.foldl (fun acc p => if p.1 = k then some p.2 else acc) none
  | _ => none

/-- `Array.isArray(x) ? x : undefined`. -/
def asArr (j : Option JVal) : Option (List JVal) :=
  match j with
  | some (.arr xs) => some xs
  | _ => none

/-- `typeof x === 'boolean' ? x : undefined`. -/
def asBoolJ (j : Option JVal) : Option Bool :=
  match j with
  | some (.bool b) => some b
  | _ => none

/-- A string field, or `undefined` for a missing or non-string value. -/
def asStrJ (j : Option JVal) : Option String :=
  match j with
  | some (.str s) => some s
  | _ => none

/-- A duration field: a positive integral JSON number (other numeric shapes
are modelled as absent). -/
def asNatJ (j : Option JVal) : Option Nat :=
  match j with
  | some (.num m e) => if 0 < m && 0 ≤ e then some (m.toNat * 10 ^ e.toNat) else none
  | _ => none

/-- JS `typeof` on a parsed JSON value (`null` and arrays are "object"). -/
def jsTypeof (j : JVal) : String :=
  match j with
  | .null => "object"
  | .bool _ => "boolean"
  | .num _ _ => "number"
  | .str _ => "string"
  | .arr _ => "object"
  | .obj _ => "object"

/-- The field projections of the returned options object (lines 559-566). -/
def projectOptions (j : JVal) : RawNavOptions :=
  { clickSelectors := asArr (jfield j "clickSelectors")
    formInputs := asArr (jfield j "formInputs")
    scrollToBottom := asBoolJ (jfield j "scrollToBottom")
    waitForSelectors := asArr (jfield j "waitForSelectors")
    followLinks := asArr (jfield j "followLinks")
    navigationSteps := asArr (jfield j "navigationSteps") }

/-- `responseText.trim()`, fence stripping, `trim()` again (lines 544-546). -/
def cleanReply (s : String) : String :=
  ⟨jsTrimL (stripFences (jsTrimL s.data))⟩

/-- Model of `analyzeNavigationNeeds` (lines 476-571): any service failure,
missing response, empty cleaned reply, parse failure or non-object result
yields the empty options object; a `null` parse passes the `typeof` check
but the subsequent property access throws and is caught, also yielding the
empty object. -/
def analyzeNavigationNeeds (g : GenOutcome) : RawNavOptions :=
  match g with
  | .fail => {}
  | .noResp => {}
  | .reply s =>
    let clean := cleanReply s
    if clean = "" then {}
    else
      match parseJson clean with
      | none => {}
      | some j =>
        if jsTypeof j ≠ "object" then {}
        else
          match j with
          | .null => {}
          | _ => projectOptions j

/-! ## Navigation steps and options as consumed by `getPageContent` -/

/-- One declarative navigation step. The `type` is kept as a raw string:
the TypeScript union annotation is erased at runtime and the interpreter
switches on string equality, silently skipping unknown types. -/
structure NavigationStep where
  type : String
  selector : Option String := none
  duration : Option Nat := none
  value : Option String := none
  text : Option String := none
deriving Repr, DecidableEq

/-- The navigation options object passed to `getPageContent`. -/
structure NavigationOptions where
  clickSelectors : Option (List String) := none
  formInputs : Option (List (String × String)) := none
  scrollToBottom : Option Bool := none
  waitForSelectors : Option (List String) := none
  followLinks : Option (List String) := none
  navigationSteps : Option (List NavigationStep) := none
deriving Repr, DecidableEq

/-- JS truthiness of an optional string field (absent or `""` is falsy). -/
def truthyS (o : Option String) : Bool :=
  match o with
  | none => false
  | some s => s ≠ ""

/-- JS truthiness of an optional numeric field (absent or `0` is falsy). -/
def truthyN (o : Option Nat) : Bool :=
  match o with
  | none => false
  | some n => n ≠ 0

/-- Dynamic projection of one parsed step object onto the fields the
interpreter reads (non-string selectors/values and non-positive-integer
durations are modelled as absent). -/
def decodeStep (j : JVal) : NavigationStep :=
  { type := (asStrJ (jfield j "type")).getD ""
    selector := asStrJ (jfield j "selector")
    duration := asNatJ (jfield j "duration")
    value := asStrJ (jfield j "value")
    text := asStrJ (jfield j "text") }

/-- Selector-list fields are consumed as strings by the interpreter;
non-string entries are modelled as `""` (which fails resolution). -/
def decodeStrList (l : List JVal) : List String :=
  l.map (fun j => (asStrJ (some j)).getD "")

/-- A form-input entry `{ selector, value }`. -/
def decodeFormInput (j : JVal) : String × String :=
  ((asStrJ (jfield j "selector")).getD "", (asStrJ (jfield j "value")).getD "")

/-- Bridge from the raw parsed options to the typed options consumed by the
page-content interpreter. -/
def decodeOptions (r : RawNavOptions) : NavigationOptions :=
  { clickSelectors := r.clickSelectors.map decodeStrList
    formInputs := r.formInputs.map (List.map decodeFormInput)
    scrollToBottom := r.scrollToBottom
    waitForSelectors := r.waitForSelectors.map decodeStrList
    followLinks := r.followLinks.map decodeStrList
    navigationSteps := r.navigationSteps.map (List.map decodeStep) }

/-! ## The oracle environment and event traces -/

/-- Opaque stand-in for a captured accessibility tree. -/
inductive AxT where
  | tree
deriving Repr, DecidableEq

/-- Outcome of the initial `page.goto` (line 143): success, a Playwright
`TimeoutError`, or another navigation error. -/
inductive GotoRes where
  | ok
  | errTimeout
  | errOther
deriving Repr, DecidableEq

/-- Which kind of fallible primitive an oracle query is for. -/
inductive PrimKind where
  | popup
  | shot
  | act
  | tierRecord
  | tierUpload
  | tierGetUrl
  | tierLocal
deriving Repr, DecidableEq

/-- Outcome of the final interpretation call to the reasoning service
(lines 634-655). -/
inductive InterpOutcome where
  | fail (m : String)
  | noResp
  | blocked (reason : String)
  | text (s : String)

/-- The world a request runs against: outcomes of every external effect.
`oracle k t` is the success of the `t`-th fallible primitive call when it is
of kind `k`; `urlAt t` the result of a `page.url()` read at counter `t`. -/
structure WEnv where
  launchOk : Bool
  gotoRes : GotoRes
  oracle : PrimKind → Nat → Bool
  urlAt : Nat → String
  now : String
  title : String
  axRes : Option (Option AxT)
  closeOk : Bool
  genReply : GenOutcome
  interp : InterpOutcome

/-- Observable events of one request. -/
inductive Ev where
  | launch
  | close
  | closeFailLog
  | navigate (u : String)
  | popupTry (i : Nat) (ok : Bool)
  | shot (ok : Bool)
  | tier (n : Nat) (ok : Bool)
  | saved (tags : List String) (meta : List (String × String)) (ref : String)
  | stepStart (i : Nat)
  | stepOk (i : Nat)
  | stepFail (i : Nat)
  | clickText (t : String) (ok : Bool)
  | waitSel (sel : String) (ok : Bool)
  | clickSel (sel : String) (ok : Bool)
  | fillSel (sel : String) (v : String) (ok : Bool)
  | pressEnter
  | waitLoad (ok : Bool)
  | waitMs (n : Nat)
  | scrollIntoView (sel : String)
  | scrollBottom
  | warn (m : String)
  | urlRead (u : String)
  | finalCheck
  | axTry
deriving Repr, DecidableEq

/-! ## Evidence persistence (`saveScreenshot`, mcp_handler.ts lines 44-106) -/

/-- Reference returned by the combined upload-plus-record tier. -/
def recordRef (fn : String) : String := "supabase-record:" ++ fn

/-- Public URL returned by the blob-only tier. -/
def blobRef (fn : String) : String := "supabase-blob:" ++ fn

/-- Local path returned by the disk tier. -/
def localRef (fn : String) : String := "local:" ++ fn

/-- Tiers two and three: blob upload plus public-URL fetch, then local disk.
The upload and URL-fetch are two separate fallible calls inside one `try`;
the counter advances by a fixed two slots for them. -/
def saveTier23 (w : WEnv) (fn : String) (tags : List String)
    (meta : List (String × String)) (c : Nat) : Except Unit String × List Ev × Nat :=
  let b1 := w.oracle .tierUpload c
  let b2 := w.oracle .tierGetUrl (c + 1)
  if b1 && b2 then
    (.ok (blobRef fn), [.tier 2 true, .saved tags meta (blobRef fn)], c + 2)
  else
    let b3 := w.oracle .tierLocal (c + 2)
    if b3 then
      (.ok (localRef fn), [.tier 2 false, .tier 3 true, .saved tags meta (localRef fn)],
        c + 3)
    else (.error (), [.tier 2 false, .tier 3 false], c + 3)

/-- Model of `saveScreenshot`: the record tier is attempted only for a truthy
URL; each tier failure falls through to the next; exhaustion of all tiers is
an error (the thrown local-write failure). -/
def saveScreenshot (w : WEnv) (prompt : String) (url : Option String)
    (tags : List String) (meta : List (String × String)) (c : Nat) :
    Except Unit String × List Ev × Nat :=
  let fn := screenshotFilename w.now url prompt
  if truthyS url then
    let b := w.oracle .tierRecord c
    if b then (.ok (recordRef fn), [.tier 1 true, .saved tags meta (recordRef fn)], c + 1)
    else
      let r := saveTier23 w fn tags meta (c + 1)
      (r.1, .tier 1 false :: r.2.1, r.2.2)
  else saveTier23 w fn tags meta c

/-! ## The navigation step interpreter (the `switch` of lines 199-316) -/

/-- The fixed fallback list of search-trigger locators (lines 250-257). -/
def searchButtonSelectors : List String :=
  ["button[aria-label*=\"search\"]",
   "button[aria-label*=\"Search\"]",
   "svg[alt=\"search\"]",
   "svg[alt=\"Search\"]",
   "button svg[alt=\"search\"]",
   "button svg[alt=\"Search\"]"]

/-- The fixed fallback list of search-input locators (lines 282-288). -/
def searchInputSelectors : List String :=
  ["input[type=\"search\"]",
   "input[name=\"search\"]",
   "input#search",
   "input[aria-label*=\"Search\"]",
   "input[aria-label*=\"search\"]"]

/-- Warning logged when no search trigger resolves (line 277). -/
def noSearchButtonMsg : String := "Could not find search button on the page"

/-- Warning logged when no search input resolves (line 309). -/
def noSearchInputMsg : String := "Could not find search input after clicking search button"

/-- Try each search-trigger candidate in order: wait for visibility then
click, a one-second pause on success; any failure moves to the next
candidate (per-candidate `try`/`catch`, lines 260-274). -/
def trySearchButtons (w : WEnv) : List String → Nat → Bool × List Ev × Nat
  | [], c => (false, [], c)
  | bsel :: rest, c =>
    let b1 := w.oracle .act c
    if b1 then
      let b2 := w.oracle .act (c + 1)
      if b2 then (true, [.waitSel bsel true, .clickSel bsel true, .waitMs 1000], c + 2)
      else
        let r := trySearchButtons w rest (c + 2)
        (r.1, .waitSel bsel true :: .clickSel bsel false :: r.2.1, r.2.2)
    else
      let r := trySearchButtons w rest (c + 1)
      (r.1, .waitSel bsel false :: r.2.1, r.2.2)

/-- Try each search-input candidate in order: wait, fill, press Enter, wait
for network idle; any failure moves to the next candidate (lines 291-306). -/
def trySearchInputs (w : WEnv) (v : String) : List String → Nat → Bool × List Ev × Nat
  | [], c => (false, [], c)
  | isel :: rest, c =>
    let b1 := w.oracle .act c
    if b1 then
      let b2 := w.oracle .act (c + 1)
      if b2 then
        let b3 := w.oracle .act (c + 2)
        if b3 then
          (true, [.waitSel isel true, .fillSel isel v true, .pressEnter, .waitLoad true],
            c + 3)
        else
          let r := trySearchInputs w v rest (c + 3)
          (r.1,
            .waitSel isel true :: .fillSel isel v true :: .pressEnter :: .waitLoad false ::
              r.2.1, r.2.2)
      else
        let r := trySearchInputs w v rest (c + 2)
        (r.1, .waitSel isel true :: .fillSel isel v false :: r.2.1, r.2.2)
    else
      let r := trySearchInputs w v rest (c + 1)
      (r.1, .waitSel isel false :: r.2.1, r.2.2)

/-- The two-phase search action (lines 246-315): trigger resolution, then
input resolution; each phase logs a distinct warning when exhausted; the
case never throws (all failures are absorbed by inner catches). -/
def searchExec (w : WEnv) (v : String) (c : Nat) : Except Unit Unit × List Ev × Nat :=
  let bres := trySearchButtons w searchButtonSelectors c
  if bres.1 then
    let ires := trySearchInputs w v searchInputSelectors bres.2.2
    if ires.1 then (.ok (), bres.2.1 ++ ires.2.1, ires.2.2)
    else (.ok (), bres.2.1 ++ ires.2.1 ++ [.warn noSearchInputMsg], ires.2.2)
  else (.ok (), bres.2.1 ++ [.warn noSearchButtonMsg], bres.2.2)

/-- Warning logged when a scroll selector fails to resolve (line 238). -/
def scrollFallbackMsg (sel : String) : String :=
  "Could not find selector " ++ sel ++ " for scrolling, trying to scroll page"

/-- The `switch (step.type)` of one navigation step. `Except.error` means an
exception escaped to the step loop's `catch`. Unknown types fall through
with no action, as in the source switch without a default case. -/
def execSwitch (w : WEnv) (step : NavigationStep) (c : Nat) :
    Except Unit Unit × List Ev × Nat :=
  if step.type = "click" then
    if truthyS step.text then
      let t := step.text.getD ""
      let b := w.oracle .act c
      if b then
        let b2 := w.oracle .act (c + 1)
        (if b2 then .ok () else .error (), [.clickText t true, .waitLoad b2], c + 2)
      else (.error (), [.clickText t false], c + 1)
    else if truthyS step.selector then
      let sel := step.selector.getD ""
      let b1 := w.oracle .act c
      if b1 then
        let b2 := w.oracle .act (c + 1)
        if b2 then
          let b3 := w.oracle .act (c + 2)
          (if b3 then .ok () else .error (),
            [.waitSel sel true, .clickSel sel true, .waitLoad b3], c + 3)
        else (.error (), [.waitSel sel true, .clickSel sel false], c + 2)
      else (.error (), [.waitSel sel false], c + 1)
    else
      let b := w.oracle .act c
      (if b then .ok () else .error (), [.waitLoad b], c + 1)
  else if step.type = "wait" then
    (.ok (), if truthyN step.duration then [.waitMs (step.duration.getD 0)] else [], c)
  else if step.type = "scroll" then
    if truthyS step.selector then
      let sel := step.selector.getD ""
      let b := w.oracle .act c
      if b then (.ok (), [.waitSel sel true, .scrollIntoView sel, .waitMs 1000], c + 1)
      else
        (.ok (),
          [.waitSel sel false, .warn (scrollFallbackMsg sel), .scrollBottom, .waitMs 1000],
          c + 1)
    else (.ok (), [], c)
  else if step.type = "search" then
    if truthyS step.selector && truthyS step.value then
      searchExec w (step.value.getD "") c
    else (.ok (), [], c)
  else (.ok (), [], c)

/-- Serialized step parameters, modelling `JSON.stringify(step)` on the
fields the interpreter carries (absent fields omitted). -/
def serializeStep (st : NavigationStep) : String :=
  let q := fun (s : String) => "\"" ++ s ++ "\""
  let fields :=
    [some ("\"type\":" ++ q st.type)] ++
    [st.selector.map (fun s => "\"selector\":" ++ q s)] ++
    [st.duration.map (fun n => "\"duration\":" ++ toString n)] ++
    [st.value.map (fun s => "\"value\":" ++ q s)] ++
    [st.text.map (fun s => "\"text\":" ++ q s)]
  "\x7b" ++ String.intercalate "," (fields.filterMap id) ++ "\x7d"

/-- The post-step URL check and mid-plan capture (lines 319-337): read the
page URL; when it differs from the last observed URL, take a screenshot and
persist it tagged `navigation_step`/`interaction`; on success the tracked
URL is updated. A screenshot or persistence failure is an exception that
reaches the step loop's `catch`. -/
def captureAfterStep (w : WEnv) (step : NavigationStep) (lastUrl : String) (c : Nat) :
    Except Unit String × List Ev × Nat :=
  let u := w.urlAt c
  if u ≠ lastUrl then
    let b := w.oracle .shot (c + 1)
    if b then
      let r := saveScreenshot w ("Navigation - " ++ u) (some u)
        ["navigation_step", "interaction"]
        [("stepType", step.type), ("stepDetails", serializeStep step),
          ("pageTitle", w.title)] (c + 2)
      match r.1 with
      | .ok _ => (.ok u, .urlRead u :: .shot true :: r.2.1, r.2.2)
      | .error _ => (.error (), .urlRead u :: .shot true :: r.2.1, r.2.2)
    else (.error (), [.urlRead u, .shot false], c + 2)
  else (.ok lastUrl, [.urlRead u], c + 1)

/-- One iteration of the step loop (lines 196-342): the step's `try` block
runs the switch, logs success, and performs the URL check and capture; the
`catch` logs the failure and leaves the tracked URL unchanged. -/
def stepBody (w : WEnv) (i : Nat) (step : NavigationStep) (lastUrl : String) (c : Nat) :
    String × List Ev × Nat :=
  let es := execSwitch w step c
  match es.1 with
  | .error _ => (lastUrl, .stepStart i :: es.2.1 ++ [.stepFail i], es.2.2)
  | .ok _ =>
    let cap := captureAfterStep w step lastUrl es.2.2
    match cap.1 with
    | .ok newLast => (newLast, .stepStart i :: es.2.1 ++ .stepOk i :: cap.2.1, cap.2.2)
    | .error _ =>
      (lastUrl, .stepStart i :: es.2.1 ++ .stepOk i :: cap.2.1 ++ [.stepFail i], cap.2.2)

/-- The step loop over the whole plan, threading the tracked URL. -/
def runSteps (w : WEnv) : List NavigationStep → Nat → String → Nat →
    String × List Ev × Nat
  | [], _, lastUrl, c => (lastUrl, [], c)
  | step :: rest, i, lastUrl, c =>
    let r := stepBody w i step lastUrl c
    let r2 := runSteps w rest (i + 1) r.1 r.2.2
    (r2.1, r.2.1 ++ r2.2.1, r2.2.2)

/-! ## The additional navigation-option blocks (lines 346-441) -/

/-- `clickSelectors`: wait, forced click, network-idle wait per selector,
each item's failure caught and logged (lines 348-372). -/
def clickSelectorsPhase (w : WEnv) : List String → Nat → List Ev × Nat
  | [], c => ([], c)
  | sel :: rest, c =>
    let b1 := w.oracle .act c
    if b1 then
      let b2 := w.oracle .act (c + 1)
      if b2 then
        let b3 := w.oracle .act (c + 2)
        let r := clickSelectorsPhase w rest (c + 3)
        (.waitSel sel true :: .clickSel sel true :: .waitLoad b3 :: r.1, r.2)
      else
        let r := clickSelectorsPhase w rest (c + 2)
        (.waitSel sel true :: .clickSel sel false :: r.1, r.2)
    else
      let r := clickSelectorsPhase w rest (c + 1)
      (.waitSel sel false :: r.1, r.2)

/-- `formInputs`: wait then fill per input, failures caught (lines 375-389). -/
def formInputsPhase (w : WEnv) : List (String × String) → Nat → List Ev × Nat
  | [], c => ([], c)
  | (sel, v) :: rest, c =>
    let b1 := w.oracle .act c
    if b1 then
      let b2 := w.oracle .act (c + 1)
      let r := formInputsPhase w rest (c + 2)
      (.waitSel sel true :: .fillSel sel v b2 :: r.1, r.2)
    else
      let r := formInputsPhase w rest (c + 1)
      (.waitSel sel false :: r.1, r.2)

/-- `scrollToBottom`: scroll the window and wait two seconds (lines 392-403);
the script evaluation and fixed wait are modelled as non-failing. -/
def scrollPhase (opt : Option Bool) : List Ev :=
  if opt.getD false then [.scrollBottom, .waitMs 2000] else []

/-- `waitForSelectors`: a visibility wait per selector (lines 406-419). -/
def waitForsPhase (w : WEnv) : List String → Nat → List Ev × Nat
  | [], c => ([], c)
  | sel :: rest, c =>
    let b := w.oracle .act c
    let r := waitForsPhase w rest (c + 1)
    (.waitSel sel b :: r.1, r.2)

/-- `followLinks`: wait, forced click, network-idle wait per link
(lines 422-440); same shape as `clickSelectors`. -/
def followLinksPhase (w : WEnv) : List String → Nat → List Ev × Nat
  | [], c => ([], c)
  | sel :: rest, c =>
    let b1 := w.oracle .act c
    if b1 then
      let b2 := w.oracle .act (c + 1)
      if b2 then
        let b3 := w.oracle .act (c + 2)
        let r := followLinksPhase w rest (c + 3)
        (.waitSel sel true :: .clickSel sel true :: .waitLoad b3 :: r.1, r.2)
      else
        let r := followLinksPhase w rest (c + 2)
        (.waitSel sel true :: .clickSel sel false :: r.1, r.2)
    else
      let r := followLinksPhase w rest (c + 1)
      (.waitSel sel false :: r.1, r.2)

/-- All additional option blocks in source order; none can abort the run. -/
def optionBlocks (w : WEnv) (opts : NavigationOptions) (c : Nat) : List Ev × Nat :=
  let r1 := clickSelectorsPhase w (opts.clickSelectors.getD []) c
  let r2 := formInputsPhase w (opts.formInputs.getD []) r1.2
  let evScroll := scrollPhase opts.scrollToBottom
  let r3 := waitForsPhase w (opts.waitForSelectors.getD []) r2.2
  let r4 := followLinksPhase w (opts.followLinks.getD []) r3.2
  (r1.1 ++ r2.1 ++ evScroll ++ r3.1 ++ r4.1, r4.2)

/-! ## The orchestrator (`getPageContent`, lines 109-473) -/

/-- Exceptions escaping to the orchestrator's `catch` (line 463). The
carried strings are modelled messages for errors whose JS text comes from
the underlying library. -/
inductive PExn where
  | timeoutE
  | otherE (m : String)
deriving Repr, DecidableEq

/-- The messages thrown out of `getPageContent`'s catch (lines 468-471). -/
def gpcWrap (url : String) (e : PExn) : String :=
  match e with
  | .timeoutE =>
    "Timeout navigating to or processing " ++ url ++
      ". The page might be too slow or unresponsive."
  | .otherE m => "Failed to get page content for " ++ url ++ ": " ++ m

/-- Modelled message of a rejected `browser.close()`. -/
def closeErrMsg : String := "browser close failed"

/-- What the orchestrator returns on success. -/
structure PageContent where
  axTree : Option AxT
deriving Repr, DecidableEq

/-- The `catch` block of `getPageContent` with the browser launched: close
the browser, then rethrow a wrapped error. The `await browser.close()` on
line 466 is not itself guarded, so a close rejection propagates in place of
the wrapped error. -/
def gpcFail (w : WEnv) (url : String) (e : PExn) (evs : List Ev) (c : Nat) :
    Except String PageContent × List Ev × Nat :=
  if w.closeOk then (.error (gpcWrap url e), evs ++ [.close], c)
  else (.error closeErrMsg, evs ++ [.close], c)

/-- Popup dismissal (lines 150-180): three best-effort attempts (cookie
banner, localization prompt, SEE ALL), each modelled as one fallible unit
whose failure is only logged. -/
def popupPhase (w : WEnv) (c : Nat) : List Ev × Nat :=
  ([.popupTry 0 (w.oracle .popup c), .popupTry 1 (w.oracle .popup (c + 1)),
    .popupTry 2 (w.oracle .popup (c + 2))], c + 3)

/-- The initial screenshot and its persistence (lines 183-191); failures
here escape to the orchestrator's catch. -/
def initialCapture (w : WEnv) (url : String) (c : Nat) :
    Except Unit Unit × List Ev × Nat :=
  let b := w.oracle .shot c
  if b then
    let r := saveScreenshot w ("Initial page load - " ++ url) (some url)
      ["initial_load", "page_entry"] [("pageState", "initial"), ("pageTitle", w.title)]
      (c + 1)
    match r.1 with
    | .ok _ => (.ok (), .shot true :: r.2.1, r.2.2)
    | .error _ => (.error (), .shot true :: r.2.1, r.2.2)
  else (.error (), [.shot false], c + 1)

/-- The final capture and harvest (lines 443-461): a final-state capture only
when the URL moved since the last capture, then the accessibility snapshot
and the returned full-page screenshot. -/
def finalAndHarvest (w : WEnv) (url : String) (lastUrl : String) (evs : List Ev)
    (c : Nat) : Except String PageContent × List Ev × Nat :=
  let u := w.urlAt c
  let headEvs := evs ++ [.finalCheck, .urlRead u]
  let afterFinal : Except Unit Unit × List Ev × Nat :=
    if u ≠ lastUrl then
      let b := w.oracle .shot (c + 1)
      if b then
        let r := saveScreenshot w ("Final page - " ++ u) (some u)
          ["final_state", "page_result"] [("pageState", "final"), ("pageTitle", w.title)]
          (c + 2)
        match r.1 with
        | .ok _ => (.ok (), .shot true :: r.2.1, r.2.2)
        | .error _ => (.error (), .shot true :: r.2.1, r.2.2)
      else (.error (), [.shot false], c + 2)
    else (.ok (), [], c + 1)
  match afterFinal.1 with
  | .error _ =>
    gpcFail w url (.otherE "final capture failed") (headEvs ++ afterFinal.2.1)
      afterFinal.2.2
  | .ok _ =>
    let evs2 := headEvs ++ afterFinal.2.1 ++ [.axTry]
    match w.axRes with
    | none => gpcFail w url (.otherE "ax snapshot failed") evs2 afterFinal.2.2
    | some t =>
      let b := w.oracle .shot afterFinal.2.2
      if b then (.ok { axTree := t }, evs2 ++ [.shot true], afterFinal.2.2 + 1)
      else
        gpcFail w url (.otherE "return screenshot failed") (evs2 ++ [.shot false])
          (afterFinal.2.2 + 1)

/-- Model of `getPageContent`: launch, initial navigation, popup dismissal,
initial capture, the step loop, the additional option blocks, final capture,
harvest; any escaped exception closes the browser and rethrows. A launch
failure leaves the browser handle null, so no close happens. -/
def getPageContent (w : WEnv) (url : String) (opts : NavigationOptions) :
    Except String PageContent × List Ev × Nat :=
  if w.launchOk then
    let evs0 : List Ev := [.launch, .navigate url]
    match w.gotoRes with
    | .errTimeout => gpcFail w url .timeoutE evs0 0
    | .errOther => gpcFail w url (.otherE "navigation failed") evs0 0
    | .ok =>
      let pp := popupPhase w 0
      let ic := initialCapture w url pp.2
      match ic.1 with
      | .error _ =>
        gpcFail w url (.otherE "initial capture failed") (evs0 ++ pp.1 ++ ic.2.1) ic.2.2
      | .ok _ =>
        let rs := runSteps w (opts.navigationSteps.getD []) 0 url ic.2.2
        let ob := optionBlocks w opts rs.2.2
        finalAndHarvest w url rs.1 (evs0 ++ pp.1 ++ ic.2.1 ++ rs.2.1 ++ ob.1) ob.2
  else (.error (gpcWrap url (.otherE "browser launch failed")), [], 0)

/-! ## The request coordinator (`handleMcpRequest`, lines 574-673) -/

/-- The sentinel returned for an empty interpretation (line 652). -/
def emptyResponseSentinel : String := "(Gemini returned an empty response)"

/-- Model of `handleMcpRequest`: derive a plan, run the orchestrator, call
the reasoning service on the evidence, wrap any error as
`MCP processing failed: ...`; the `finally` block closes the browser when
(and only when) `getPageContent` returned one, logging but swallowing any
close error. -/
def handleMcpRequest (w : WEnv) (url _prompt : String) :
    Except String String × List Ev × Nat :=
  let opts := decodeOptions (analyzeNavigationNeeds w.genReply)
  let g := getPageContent w url opts
  match g.1 with
  | .error m => (.error ("MCP processing failed: " ++ m), g.2.1, g.2.2)
  | .ok _pc =>
    let fin : List Ev := if w.closeOk then [.close] else [.close, .closeFailLog]
    match w.interp with
    | .fail m => (.error ("MCP processing failed: " ++ m), g.2.1 ++ fin, g.2.2)
    | .noResp =>
      (.error ("MCP processing failed: Gemini API returned an empty response."),
        g.2.1 ++ fin, g.2.2)
    | .blocked r =>
      (.error ("MCP processing failed: Request blocked by Gemini due to " ++ r ++ "."),
        g.2.1 ++ fin, g.2.2)
    | .text s =>
      if s = "" then (.ok emptyResponseSentinel, g.2.1 ++ fin, g.2.2)
      else (.ok s, g.2.1 ++ fin, g.2.2)

/-! ## Trace predicates and concrete environments used in the theorems -/

/-- Events that are neither a browser launch nor a browser close. -/
def benignEv (e : Ev) : Bool :=
  match e with
  | .close => false
  | .launch => false
  | _ => true

/-- A trace containing neither launch nor close events. -/
def benign (evs : List Ev) : Prop := ∀ e ∈ evs, benignEv e = true

/-- Number of browser-close events in a trace. -/
def closes (evs : List Ev) : Nat := evs.count .close

/-- Number of browser-launch events in a trace. -/
def launches (evs : List Ev) : Nat := evs.count .launch

/-- Whether an `Except` result is a success. -/
def isOkE {α β : Type} (r : Except α β) : Bool :=
  match r with
  | .ok _ => true
  | .error _ => false

/-- Whether a trace records any persisted capture. -/
def hasSaved (evs : List Ev) : Bool :=
  evs.any fun e => match e with | .saved _ _ _ => true | _ => false

/-- Whether a trace records a persisted capture tagged
`navigation_step`/`interaction` (a mid-plan capture). -/
def savedNav (evs : List Ev) : Bool :=
  evs.any fun e =>
    match e with
    | .saved tags _ _ => tags = ["navigation_step", "interaction"]
    | _ => false

/-- Whether a trace records any screenshot attempt. -/
def hasShot (evs : List Ev) : Bool :=
  evs.any fun e => match e with | .shot _ => true | _ => false

/-- Whether a trace records any click action (by text or selector). -/
def hasClick (evs : List Ev) : Bool :=
  evs.any fun e =>
    match e with
    | .clickText _ _ => true
    | .clickSel _ _ => true
    | _ => false

/-- A fully cooperative world: every primitive succeeds. -/
def baseEnv : WEnv :=
  { launchOk := true
    gotoRes := .ok
    oracle := fun _ _ => true
    urlAt := fun _ => "https://site.example/"
    now := "2024-01-02T03:04:05.678Z"
    title := "T"
    axRes := some (some .tree)
    closeOk := true
    genReply := .fail
    interp := .text "answer" }

/-- Time-indexed tier oracle: the record tier succeeds only at calls 4 and 15
(the initial and final captures of `midExhaustEnv`'s run), every other tier
call fails; all non-tier primitives succeed. -/
def midExhaustOracle : PrimKind → Nat → Bool
  | .tierRecord, t => decide (t = 4 ∨ t = 15)
  | .tierUpload, _ => false
  | .tierGetUrl, _ => false
  | .tierLocal, _ => false
  | _, _ => true

/-- Page URL over time for the mid-plan exhaustion run: the click step moves
the page, so the post-step URL read (call 7) sees the new address. -/
def midExhaustUrl (t : Nat) : String :=
  if t ≤ 6 then "https://a.example/" else "https://b.example/"

/-- A world in which every persistence tier fails exactly during the mid-plan
step capture while both the initial and final captures persist fine. -/
def midExhaustEnv : WEnv :=
  { baseEnv with oracle := midExhaustOracle, urlAt := midExhaustUrl }

/-- The single click step of the mid-plan exhaustion run. -/
def midPlanStep : NavigationStep := { type := "click", text := some "Go" }

/-- Options holding just that click step. -/
def midPlanOpts : NavigationOptions := { navigationSteps := some [midPlanStep] }

/-- Time-indexed tier oracle: the record tier succeeds only at call 4 (the
initial capture), so the final capture exhausts all three tiers. -/
def finalExhaustOracle : PrimKind → Nat → Bool
  | .tierRecord, t => decide (t = 4)
  | .tierUpload, _ => false
  | .tierGetUrl, _ => false
  | .tierLocal, _ => false
  | _, _ => true

/-- A world whose page URL has moved by the final check, forcing a final
capture whose persistence exhausts all tiers. -/
def finalExhaustEnv : WEnv :=
  { baseEnv with oracle := finalExhaustOracle, urlAt := fun _ => "https://b.example/" }

/-! ## Helper lemmas: benign traces -/

theorem benign_nil : benign [] := by
  intro e he
  cases he

theorem benign_cons_iff {a : Ev} {l : List Ev} :
    benign (a :: l) ↔ benignEv a = true ∧ benign l := by
  constructor
  · intro h
    exact ⟨h a (List.mem_cons_self a l), fun e he => h e (List.mem_cons_of_mem a he)⟩
  · rintro ⟨ha, hl⟩ e he
    rcases List.mem_cons.mp he with rfl | he2
    · exact ha
    · exact hl e he2

theorem benign_append_iff {l1 l2 : List Ev} :
    benign (l1 ++ l2) ↔ benign l1 ∧ benign l2 := by
  constructor
  · intro h
    exact ⟨fun e he => h e (List.mem_append_left _ he),
      fun e he => h e (List.mem_append_right _ he)⟩
  · rintro ⟨h1, h2⟩ e he
    rcases List.mem_append.mp he with he1 | he2
    · exact h1 e he1
    · exact h2 e he2

theorem count_close_of_benign {l : List Ev} (h : benign l) : closes l = 0 := by
  refine List.count_eq_zero.mpr (fun hc => ?_)
  have := h _ hc
  simp [benignEv] at this

theorem count_launch_of_benign {l : List Ev} (h : benign l) : launches l = 0 := by
  refine List.count_eq_zero.mpr (fun hc => ?_)
  have := h _ hc
  simp [benignEv] at this

theorem benign_saveTier23 (w : WEnv) (fn : String) (tags : List String)
    (meta : List (String × String)) (c : Nat) :
    benign (saveTier23 w fn tags meta c).2.1 := by
  unfold saveTier23
  dsimp only
  repeat' split
  all_goals try simp only [benign_cons_iff, benign_append_iff]
  all_goals repeat' apply And.intro
  all_goals first
    | rfl
    | exact benign_nil

theorem benign_saveScreenshot (w : WEnv) (p : String) (u : Option String)
    (tags : List String) (meta : List (String × String)) (c : Nat) :
    benign (saveScreenshot w p u tags meta c).2.1 := by
  unfold saveScreenshot
  dsimp only
  repeat' split
  all_goals try simp only [benign_cons_iff, benign_append_iff]
  all_goals repeat' apply And.intro
  all_goals first
    | rfl
    | exact benign_nil
    | exact benign_saveTier23 _ _ _ _ _

theorem benign_trySearchButtons (w : WEnv) :
    ∀ (l : List String) (c : Nat), benign (trySearchButtons w l c).2.1 := by
  intro l
  induction l with
  | nil => intro c; exact benign_nil
  | cons b rest ih =>
    intro c
    unfold trySearchButtons
    dsimp only
    repeat' split
    all_goals try simp only [benign_cons_iff, benign_append_iff]
    all_goals repeat' apply And.intro
    all_goals first
      | rfl
      | exact benign_nil
      | exact ih _

theorem benign_trySearchInputs (w : WEnv) (v : String) :
    ∀ (l : List String) (c : Nat), benign (trySearchInputs w v l c).2.1 := by
  intro l
  induction l with
  | nil => intro c; exact benign_nil
  | cons b rest ih =>
    intro c
    unfold trySearchInputs
    dsimp only
    repeat' split
    all_goals try simp only [benign_cons_iff, benign_append_iff]
    all_goals repeat' apply And.intro
    all_goals first
      | rfl
      | exact benign_nil
      | exact ih _

theorem benign_searchExec (w : WEnv) (v : String) (c : Nat) :
    benign (searchExec w v c).2.1 := by
  unfold searchExec
  dsimp only
  repeat' split
  all_goals try simp only [benign_cons_iff, benign_append_iff]
  all_goals repeat' apply And.intro
  all_goals first
    | rfl
    | exact benign_nil
    | exact benign_trySearchButtons _ _ _
    | exact benign_trySearchInputs _ _ _ _

theorem benign_execSwitch (w : WEnv) (step : NavigationStep) (c : Nat) :
    benign (execSwitch w step c).2.1 := by
  unfold execSwitch
  dsimp only
  repeat' split
  all_goals try simp only [benign_cons_iff, benign_append_iff]
  all_goals repeat' apply And.intro
  all_goals first
    | rfl
    | exact benign_nil
    | exact benign_searchExec _ _ _

theorem benign_captureAfterStep (w : WEnv) (step : NavigationStep) (lastUrl : String)
    (c : Nat) : benign (captureAfterStep w step lastUrl c).2.1 := by
  unfold captureAfterStep
  dsimp only
  repeat' split
  all_goals try simp only [benign_cons_iff, benign_append_iff]
  all_goals repeat' apply And.intro
  all_goals first
    | rfl
    | exact benign_nil
    | exact benign_saveScreenshot _ _ _ _ _ _

theorem benign_stepBody (w : WEnv) (i : Nat) (step : NavigationStep) (lastUrl : String)
    (c : Nat) : benign (stepBody w i step lastUrl c).2.1 := by
  unfold stepBody
  dsimp only
  repeat' split
  all_goals try simp only [benign_cons_iff, benign_append_iff]
  all_goals repeat' apply And.intro
  all_goals first
    | rfl
    | exact benign_nil
    | exact benign_execSwitch _ _ _
    | exact benign_captureAfterStep _ _ _ _

theorem benign_runSteps (w : WEnv) :
    ∀ (steps : List NavigationStep) (i : Nat) (lastUrl : String) (c : Nat),
      benign (runSteps w steps i lastUrl c).2.1 := by
  intro steps
  induction steps with
  | nil => intro i lastUrl c; exact benign_nil
  | cons s rest ih =>
    intro i lastUrl c
    unfold runSteps
    dsimp only
    exact benign_append_iff.mpr ⟨benign_stepBody _ _ _ _ _, ih _ _ _⟩

theorem benign_clickSelectorsPhase (w : WEnv) :
    ∀ (l : List String) (c : Nat), benign (clickSelectorsPhase w l c).1 := by
  intro l
  induction l with
  | nil => intro c; exact benign_nil
  | cons s rest ih =>
    intro c
    unfold clickSelectorsPhase
    dsimp only
    repeat' split
    all_goals try simp only [benign_cons_iff, benign_append_iff]
    all_goals repeat' apply And.intro
    all_goals first
      | rfl
      | exact ih _

theorem benign_formInputsPhase (w : WEnv) :
    ∀ (l : List (String × String)) (c : Nat), benign (formInputsPhase w l c).1 := by
  intro l
  induction l with
  | nil => intro c; exact benign_nil
  | cons s rest ih =>
    intro c
    unfold formInputsPhase
    dsimp only
    repeat' split
    all_goals try simp only [benign_cons_iff, benign_append_iff]
    all_goals repeat' apply And.intro
    all_goals first
      | rfl
      | exact ih _

theorem benign_scrollPhase (o : Option Bool) : benign (scrollPhase o) := by
  unfold scrollPhase
  split
  · exact benign_cons_iff.mpr ⟨rfl, benign_cons_iff.mpr ⟨rfl, benign_nil⟩⟩
  · exact benign_nil

theorem benign_waitForsPhase (w : WEnv) :
    ∀ (l : List String) (c : Nat), benign (waitForsPhase w l c).1 := by
  intro l
  induction l with
  | nil => intro c; exact benign_nil
  | cons s rest ih =>
    intro c
    unfold waitForsPhase
    dsimp only
    exact benign_cons_iff.mpr ⟨rfl, ih _⟩

theorem benign_followLinksPhase (w : WEnv) :
    ∀ (l : List String) (c : Nat), benign (followLinksPhase w l c).1 := by
  intro l
  induction l with
  | nil => intro c; exact benign_nil
  | cons s rest ih =>
    intro c
    unfold followLinksPhase
    dsimp only
    repeat' split
    all_goals try simp only [benign_cons_iff, benign_append_iff]
    all_goals repeat' apply And.intro
    all_goals first
      | rfl
      | exact ih _

theorem benign_optionBlocks (w : WEnv) (opts : NavigationOptions) (c : Nat) :
    benign (optionBlocks w opts c).1 := by
  unfold optionBlocks
  dsimp only
  simp only [benign_append_iff]
  exact ⟨⟨⟨⟨benign_clickSelectorsPhase _ _ _, benign_formInputsPhase _ _ _⟩,
    benign_scrollPhase _⟩, benign_waitForsPhase _ _ _⟩, benign_followLinksPhase _ _ _⟩

theorem benign_popupPhase (w : WEnv) (c : Nat) : benign (popupPhase w c).1 := by
  unfold popupPhase
  dsimp only
  exact benign_cons_iff.mpr ⟨rfl, benign_cons_iff.mpr ⟨rfl,
    benign_cons_iff.mpr ⟨rfl, benign_nil⟩⟩⟩

theorem benign_initialCapture (w : WEnv) (url : String) (c : Nat) :
    benign (initialCapture w url c).2.1 := by
  unfold initialCapture
  dsimp only
  repeat' split
  all_goals try simp only [benign_cons_iff, benign_append_iff]
  all_goals repeat' apply And.intro
  all_goals first
    | rfl
    | exact benign_nil
    | exact benign_saveScreenshot _ _ _ _ _ _

/-! ## Helper lemmas: failure wrapper, success paths, counting -/

theorem gpcFail_trace (w : WEnv) (url : String) (e : PExn) (evs : List Ev) (c : Nat) :
    (gpcFail w url e evs c).2.1 = evs ++ [.close] := by
  unfold gpcFail
  split <;> rfl

theorem gpcFail_isOk (w : WEnv) (url : String) (e : PExn) (evs : List Ev) (c : Nat) :
    isOkE (gpcFail w url e evs c).1 = false := by
  unfold gpcFail
  split <;> rfl

theorem saveScreenshot_ok (w : WEnv) (p : String) (u : Option String)
    (tags : List String) (meta : List (String × String)) (c : Nat)
    (h2 : ∀ t, w.oracle .tierRecord t = true) (h3 : ∀ t, w.oracle .tierUpload t = true)
    (h4 : ∀ t, w.oracle .tierGetUrl t = true) :
    ∃ r, (saveScreenshot w p u tags meta c).1 = Except.ok r := by
  unfold saveScreenshot saveTier23
  simp only [h2, h3, h4, Bool.and_self, if_true]
  split <;> exact ⟨_, rfl⟩

theorem initialCapture_ok (w : WEnv) (url : String) (c : Nat)
    (h1 : ∀ t, w.oracle .shot t = true) (h2 : ∀ t, w.oracle .tierRecord t = true)
    (h3 : ∀ t, w.oracle .tierUpload t = true) (h4 : ∀ t, w.oracle .tierGetUrl t = true) :
    (initialCapture w url c).1 = Except.ok () := by
  unfold initialCapture
  dsimp only
  rw [h1]
  obtain ⟨r, hr⟩ := saveScreenshot_ok w ("Initial page load - " ++ url) (some url)
    ["initial_load", "page_entry"] [("pageState", "initial"), ("pageTitle", w.title)]
    (c + 1) h2 h3 h4
  simp only [if_true, hr]

theorem finalAndHarvest_ok (w : WEnv) (url lu : String) (evs : List Ev) (c : Nat)
    (h1 : ∀ t, w.oracle .shot t = true) (h2 : ∀ t, w.oracle .tierRecord t = true)
    (h3 : ∀ t, w.oracle .tierUpload t = true) (h4 : ∀ t, w.oracle .tierGetUrl t = true)
    (t : Option AxT) (hax : w.axRes = some t) :
    ∃ pc tail c2,
      finalAndHarvest w url lu evs c = (Except.ok pc, evs ++ .finalCheck :: tail, c2) ∧
        Ev.axTry ∈ tail := by
  unfold finalAndHarvest
  dsimp only
  by_cases hu : w.urlAt c = lu
  · simp only [hu, ne_eq, not_true_eq_false, ite_false, hax, h1, ite_true]
    refine ⟨{ axTree := t }, [Ev.urlRead lu, Ev.axTry, Ev.shot true], c + 1 + 1, ?_, ?_⟩
    · simp
    · simp
  · obtain ⟨r, hr⟩ := saveScreenshot_ok w ("Final page - " ++ w.urlAt c) (some (w.urlAt c))
      ["final_state", "page_result"] [("pageState", "final"), ("pageTitle", w.title)]
      (c + 2) h2 h3 h4
    simp only [ne_eq, hu, not_false_eq_true, ite_true, h1, hr, hax]
    refine ⟨{ axTree := t },
      Ev.urlRead (w.urlAt c) :: Ev.shot true ::
        ((saveScreenshot w ("Final page - " ++ w.urlAt c) (some (w.urlAt c))
          ["final_state", "page_result"] [("pageState", "final"), ("pageTitle", w.title)]
          (c + 2)).2.1 ++ [Ev.axTry, Ev.shot true]),
      (saveScreenshot w ("Final page - " ++ w.urlAt c) (some (w.urlAt c))
        ["final_state", "page_result"] [("pageState", "final"), ("pageTitle", w.title)]
        (c + 2)).2.2 + 1, ?_, ?_⟩
    · simp
    · simp

theorem stepStart_mem_stepBody (w : WEnv) (i : Nat) (step : NavigationStep)
    (lastUrl : String) (c : Nat) :
    Ev.stepStart i ∈ (stepBody w i step lastUrl c).2.1 := by
  unfold stepBody
  dsimp only
  repeat' split
  all_goals exact List.mem_cons_self _ _

theorem runSteps_stepStart (w : WEnv) :
    ∀ (steps : List NavigationStep) (i0 : Nat) (lastUrl : String) (c k : Nat),
      k < steps.length → Ev.stepStart (i0 + k) ∈ (runSteps w steps i0 lastUrl c).2.1 := by
  intro steps
  induction steps with
  | nil =>
    intro i0 lastUrl c k hk
    simp at hk
  | cons s rest ih =>
    intro i0 lastUrl c k hk
    unfold runSteps
    dsimp only
    cases k with
    | zero =>
      refine List.mem_append_left _ ?_
      simpa using stepStart_mem_stepBody w i0 s lastUrl c
    | succ k2 =>
      refine List.mem_append_right _ ?_
      have hlt : k2 < rest.length := by simpa using Nat.lt_of_succ_lt_succ hk
      have heq : i0 + (k2 + 1) = (i0 + 1) + k2 := by omega
      rw [heq]
      exact ih (i0 + 1) _ _ k2 hlt

theorem gpc_ok (w : WEnv) (url : String) (opts : NavigationOptions)
    (hl : w.launchOk = true) (hg : w.gotoRes = .ok)
    (h1 : ∀ t, w.oracle .shot t = true) (h2 : ∀ t, w.oracle .tierRecord t = true)
    (h3 : ∀ t, w.oracle .tierUpload t = true) (h4 : ∀ t, w.oracle .tierGetUrl t = true)
    (t : Option AxT) (hax : w.axRes = some t) :
    ∃ pc evs c2, getPageContent w url opts = (Except.ok pc, evs, c2) ∧
      Ev.finalCheck ∈ evs ∧ Ev.axTry ∈ evs ∧
      (∀ e ∈ (runSteps w (opts.navigationSteps.getD []) 0 url
        (initialCapture w url (popupPhase w 0).2).2.2).2.1, e ∈ evs) := by
  unfold getPageContent
  dsimp only
  rw [hl, hg]
  simp only [if_true]
  rw [initialCapture_ok w url (popupPhase w 0).2 h1 h2 h3 h4]
  dsimp only
  obtain ⟨pc, tail, c2, hfh, htail⟩ := finalAndHarvest_ok w url
    (runSteps w (opts.navigationSteps.getD []) 0 url
      (initialCapture w url (popupPhase w 0).2).2.2).1
    ([Ev.launch, Ev.navigate url] ++ (popupPhase w 0).1 ++
      (initialCapture w url (popupPhase w 0).2).2.1 ++
      (runSteps w (opts.navigationSteps.getD []) 0 url
        (initialCapture w url (popupPhase w 0).2).2.2).2.1 ++
      (optionBlocks w opts
        (runSteps w (opts.navigationSteps.getD []) 0 url
          (initialCapture w url (popupPhase w 0).2).2.2).2.2).1)
    (optionBlocks w opts
      (runSteps w (opts.navigationSteps.getD []) 0 url
        (initialCapture w url (popupPhase w 0).2).2.2).2.2).2
    h1 h2 h3 h4 t hax
  rw [hfh]
  refine ⟨pc, _, c2, rfl, ?_, ?_, ?_⟩
  · exact List.mem_append_right _ (List.mem_cons_self _ _)
  · exact List.mem_append_right _ (List.mem_cons_of_mem _ htail)
  · intro e he
    refine List.mem_append_left _ ?_
    refine List.mem_append_left _ ?_
    exact List.mem_append_right _ he

/-! ## Helper lemmas: counting launches and closes -/

@[simp] theorem closes_nil : closes [] = 0 := rfl

@[simp] theorem launches_nil : launches [] = 0 := rfl

@[simp] theorem closes_append (l1 l2 : List Ev) :
    closes (l1 ++ l2) = closes l1 + closes l2 := by
  simp [closes, List.count_append]

@[simp] theorem launches_append (l1 l2 : List Ev) :
    launches (l1 ++ l2) = launches l1 + launches l2 := by
  simp [launches, List.count_append]

@[simp] theorem closes_cons (e : Ev) (l : List Ev) :
    closes (e :: l) = closes l + (if e = Ev.close then 1 else 0) := by
  simp [closes, List.count_cons, beq_iff_eq]

@[simp] theorem launches_cons (e : Ev) (l : List Ev) :
    launches (e :: l) = launches l + (if e = Ev.launch then 1 else 0) := by
  simp [launches, List.count_cons, beq_iff_eq]

@[simp] theorem closes_saveScreenshot (w : WEnv) (p : String) (u : Option String)
    (tags : List String) (meta : List (String × String)) (c : Nat) :
    closes (saveScreenshot w p u tags meta c).2.1 = 0 :=
  count_close_of_benign (benign_saveScreenshot w p u tags meta c)

@[simp] theorem launches_saveScreenshot (w : WEnv) (p : String) (u : Option String)
    (tags : List String) (meta : List (String × String)) (c : Nat) :
    launches (saveScreenshot w p u tags meta c).2.1 = 0 :=
  count_launch_of_benign (benign_saveScreenshot w p u tags meta c)

@[simp] theorem closes_popupPhase (w : WEnv) (c : Nat) : closes (popupPhase w c).1 = 0 :=
  count_close_of_benign (benign_popupPhase w c)

@[simp] theorem launches_popupPhase (w : WEnv) (c : Nat) :
    launches (popupPhase w c).1 = 0 :=
  count_launch_of_benign (benign_popupPhase w c)

@[simp] theorem closes_initialCapture (w : WEnv) (url : String) (c : Nat) :
    closes (initialCapture w url c).2.1 = 0 :=
  count_close_of_benign (benign_initialCapture w url c)

@[simp] theorem launches_initialCapture (w : WEnv) (url : String) (c : Nat) :
    launches (initialCapture w url c).2.1 = 0 :=
  count_launch_of_benign (benign_initialCapture w url c)

@[simp] theorem closes_runSteps (w : WEnv) (steps : List NavigationStep) (i : Nat)
    (lastUrl : String) (c : Nat) : closes (runSteps w steps i lastUrl c).2.1 = 0 :=
  count_close_of_benign (benign_runSteps w steps i lastUrl c)

@[simp] theorem launches_runSteps (w : WEnv) (steps : List NavigationStep) (i : Nat)
    (lastUrl : String) (c : Nat) : launches (runSteps w steps i lastUrl c).2.1 = 0 :=
  count_launch_of_benign (benign_runSteps w steps i lastUrl c)

@[simp] theorem closes_optionBlocks (w : WEnv) (opts : NavigationOptions) (c : Nat) :
    closes (optionBlocks w opts c).1 = 0 :=
  count_close_of_benign (benign_optionBlocks w opts c)

@[simp] theorem launches_optionBlocks (w : WEnv) (opts : NavigationOptions) (c : Nat) :
    launches (optionBlocks w opts c).1 = 0 :=
  count_launch_of_benign (benign_optionBlocks w opts c)


theorem finalAndHarvest_counts (w : WEnv) (url lu : String) (evs : List Ev) (c : Nat) :
    launches (finalAndHarvest w url lu evs c).2.1 = launches evs ∧
      closes (finalAndHarvest w url lu evs c).2.1 =
        closes evs + (if isOkE (finalAndHarvest w url lu evs c).1 then 0 else 1) := by
  unfold finalAndHarvest
  dsimp only
  by_cases hu : w.urlAt c = lu
  · simp only [hu, ne_eq, not_true_eq_false, if_false, ite_false]
    try dsimp only
    cases hax : w.axRes with
    | none =>
      rw [gpcFail_isOk, gpcFail_trace]
      simp
    | some t =>
      by_cases hs : w.oracle .shot (c + 1) = true
      · simp only [hs, ite_true, isOkE]
        simp
      · simp only [Bool.not_eq_true] at hs
        simp only [hs, Bool.false_eq_true, ite_false]
        rw [gpcFail_isOk, gpcFail_trace]
        simp
  · by_cases hs : w.oracle .shot (c + 1) = true
    · cases hsv : (saveScreenshot w ("Final page - " ++ w.urlAt c) (some (w.urlAt c))
        ["final_state", "page_result"] [("pageState", "final"), ("pageTitle", w.title)]
        (c + 2)).1 with
      | ok r =>
        simp only [ne_eq, hu, not_false_eq_true, if_true, ite_true, hs, hsv]
        try dsimp only
        cases hax : w.axRes with
        | none =>
          rw [gpcFail_isOk, gpcFail_trace]
          simp
        | some t =>
          by_cases hs2 : w.oracle .shot (saveScreenshot w ("Final page - " ++ w.urlAt c)
            (some (w.urlAt c)) ["final_state", "page_result"]
            [("pageState", "final"), ("pageTitle", w.title)] (c + 2)).2.2 = true
          · simp only [hs2, ite_true, isOkE]
            simp
          · simp only [Bool.not_eq_true] at hs2
            simp only [hs2, Bool.false_eq_true, ite_false]
            rw [gpcFail_isOk, gpcFail_trace]
            simp
      | error e =>
        simp only [ne_eq, hu, not_false_eq_true, if_true, ite_true, hs, hsv]
        try dsimp only
        rw [gpcFail_isOk, gpcFail_trace]
        simp
    · simp only [Bool.not_eq_true] at hs
      simp only [ne_eq, hu, not_false_eq_true, if_true, ite_true, hs, Bool.false_eq_true, ite_false]
      try dsimp only
      rw [gpcFail_isOk, gpcFail_trace]
      simp

theorem gpc_counts (w : WEnv) (url : String) (opts : NavigationOptions) :
    launches (getPageContent w url opts).2.1 = (if w.launchOk then 1 else 0) ∧
      closes (getPageContent w url opts).2.1 =
        (if isOkE (getPageContent w url opts).1 then 0 else if w.launchOk then 1 else 0) ∧
      (isOkE (getPageContent w url opts).1 = true → w.launchOk = true) := by
  unfold getPageContent
  dsimp only
  by_cases hl : w.launchOk
  · simp only [hl, ite_true, if_true]
    cases hg : w.gotoRes with
    | errTimeout =>
      dsimp only
      rw [gpcFail_isOk, gpcFail_trace]
      simp
    | errOther =>
      dsimp only
      rw [gpcFail_isOk, gpcFail_trace]
      simp
    | ok =>
      cases hic : (initialCapture w url (popupPhase w 0).2).1 with
      | error e =>
        dsimp only
        rw [gpcFail_isOk, gpcFail_trace]
        simp
      | ok u =>
        dsimp only
        have hfh := finalAndHarvest_counts w url
          (runSteps w (opts.navigationSteps.getD []) 0 url
            (initialCapture w url (popupPhase w 0).2).2.2).1
          ([Ev.launch, Ev.navigate url] ++ (popupPhase w 0).1 ++
            (initialCapture w url (popupPhase w 0).2).2.1 ++
            (runSteps w (opts.navigationSteps.getD []) 0 url
              (initialCapture w url (popupPhase w 0).2).2.2).2.1 ++
            (optionBlocks w opts
              (runSteps w (opts.navigationSteps.getD []) 0 url
                (initialCapture w url (popupPhase w 0).2).2.2).2.2).1)
          (optionBlocks w opts
            (runSteps w (opts.navigationSteps.getD []) 0 url
              (initialCapture w url (popupPhase w 0).2).2.2).2.2).2
        rcases hfh with ⟨hfl, hfc⟩
        refine ⟨?_, ?_, ?_⟩
        · rw [hfl]; simp
        · rw [hfc]; simp
        · intro _; trivial
  · simp only [Bool.not_eq_true] at hl
    simp [hl, closes, launches, isOkE]

theorem handleMcp_teardown_counts (w : WEnv) (url p : String) :
    closes (handleMcpRequest w url p).2.1 = launches (handleMcpRequest w url p).2.1 ∧
      launches (handleMcpRequest w url p).2.1 ≤ 1 := by
  unfold handleMcpRequest
  dsimp only
  obtain ⟨hgl, hgc, hgo⟩ :=
    gpc_counts w url (decodeOptions (analyzeNavigationNeeds w.genReply))
  cases hg : (getPageContent w url (decodeOptions (analyzeNavigationNeeds w.genReply))).1
    with
  | error m =>
    rw [hg] at hgc hgo
    simp only [isOkE] at hgc
    try dsimp only
    constructor
    · rw [hgl, hgc]
      by_cases hl : w.launchOk <;> simp [hl]
    · rw [hgl]
      by_cases hl : w.launchOk <;> simp [hl]
  | ok pc =>
    rw [hg] at hgc hgo
    simp only [isOkE] at hgc hgo
    have hl : w.launchOk = true := hgo trivial
    try dsimp only
    have hfin : ∀ fin2 : List Ev, fin2 = (if w.closeOk then [Ev.close]
        else [Ev.close, Ev.closeFailLog]) → closes fin2 = 1 ∧ launches fin2 = 0 := by
      intro fin2 hf
      subst hf
      by_cases hc : w.closeOk <;> simp [hc]
    obtain ⟨hfc, hfl2⟩ := hfin _ rfl
    cases w.interp with
    | fail m =>
      constructor
      · simp [hgc, hgl, hl, hfc, hfl2]
      · simp [hgl, hl, hfl2]
    | noResp =>
      constructor
      · simp [hgc, hgl, hl, hfc, hfl2]
      · simp [hgl, hl, hfl2]
    | blocked r =>
      constructor
      · simp [hgc, hgl, hl, hfc, hfl2]
      · simp [hgl, hl, hfl2]
    | text s =>
      by_cases hs : s = "" <;>
        constructor <;> simp [hs, hgc, hgl, hl, hfc, hfl2]

/-! ## Helper lemmas: filename structure -/

theorem b64Char_mem (n : Nat) : b64Char n ∈ b64Alphabet := by
  unfold b64Char
  rw [List.getD_eq_getElem?_getD]
  cases h : b64Alphabet[n]? with
  | some c =>
    simp only [Option.getD_some]
    exact List.getElem?_mem h
  | none => decide

theorem b64Char_ne_underscore (n : Nat) : b64Char n ≠ '_' := by
  intro h
  have := b64Char_mem n
  rw [h] at this
  revert this
  decide

theorem b64Chunk_no_underscore (ck : List Nat) : '_' ∉ b64Chunk ck := by
  intro h
  rcases ck with _ | ⟨a, _ | ⟨b, _ | ⟨c, rest⟩⟩⟩
  · rw [show b64Chunk [] = [] from rfl] at h
    exact List.not_mem_nil _ h
  · rw [show b64Chunk [a] = [b64Char (a / 4), b64Char (a % 4 * 16), '=', '='] from rfl] at h
    simp only [List.mem_cons, List.not_mem_nil, or_false] at h
    rcases h with h | h | h | h
    all_goals first
      | exact b64Char_ne_underscore _ h.symm
      | exact absurd h (by decide)
  · rw [show b64Chunk [a, b] =
      [b64Char (a / 4), b64Char (a % 4 * 16 + b / 16), b64Char (b % 16 * 4), '='] from rfl]
      at h
    simp only [List.mem_cons, List.not_mem_nil, or_false] at h
    rcases h with h | h | h | h
    all_goals first
      | exact b64Char_ne_underscore _ h.symm
      | exact absurd h (by decide)
  · cases rest with
    | nil =>
      rw [show b64Chunk [a, b, c] = [b64Char (a / 4), b64Char (a % 4 * 16 + b / 16),
        b64Char (b % 16 * 4 + c / 64), b64Char (c % 64)] from rfl] at h
      simp only [List.mem_cons, List.not_mem_nil, or_false] at h
      rcases h with h | h | h | h
      all_goals exact b64Char_ne_underscore _ h.symm
    | cons d rest2 =>
      rw [show b64Chunk (a :: b :: c :: d :: rest2) = [] from rfl] at h
      exact List.not_mem_nil _ h

theorem promptHash_no_underscore (d : List Char) : '_' ∉ promptHash d := by
  intro h
  unfold promptHash b64Encode at h
  have h2 := List.mem_of_mem_take h
  rcases List.mem_flatten.mp h2 with ⟨ck, hck, hmem⟩
  rcases List.mem_map.mp hck with ⟨bs, _, rfl⟩
  exact b64Chunk_no_underscore bs hmem

theorem sanitizeTs_no_underscore {t : List Char} (h : '_' ∉ t) : '_' ∉ sanitizeTs t := by
  intro hmem
  unfold sanitizeTs at hmem
  rcases List.mem_map.mp hmem with ⟨c, hc, heq⟩
  by_cases hb : (c = ':' || c = '.') = true
  · rw [if_pos hb] at heq
    cases heq
  · rw [if_neg hb] at heq
    subst heq
    exact h hc

theorem slugify_no_underscore (h : List Char) : '_' ∉ slugify h := by
  intro hmem
  unfold slugify at hmem
  rcases List.mem_map.mp hmem with ⟨c, _, heq⟩
  by_cases hb : isAlnumAscii c = true
  · rw [if_pos hb] at heq
    subst heq
    revert hb
    decide
  · rw [if_neg hb] at heq
    cases heq

theorem append_underscore_inj :
    ∀ (a1 a2 b1 b2 : List Char), a1 ++ '_' :: b1 = a2 ++ '_' :: b2 →
      '_' ∉ a1 → '_' ∉ a2 → a1 = a2 ∧ b1 = b2 := by
  intro a1
  induction a1 with
  | nil =>
    intro a2 b1 b2 heq h1 h2
    cases a2 with
    | nil =>
      simp at heq
      exact ⟨rfl, heq⟩
    | cons c a2t =>
      simp at heq
      rcases heq with ⟨hc, _⟩
      exact absurd (by rw [hc]; exact List.mem_cons_self _ _) h2
  | cons c a1t ih =>
    intro a2 b1 b2 heq h1 h2
    cases a2 with
    | nil =>
      simp at heq
      rcases heq with ⟨hc, _⟩
      exact absurd (by rw [← hc]; exact List.mem_cons_self _ _) h1
    | cons c2 a2t =>
      simp only [List.cons_append, List.cons.injEq] at heq
      rcases heq with ⟨hc, ht⟩
      have h1t : '_' ∉ a1t := fun hm => h1 (List.mem_cons_of_mem _ hm)
      have h2t : '_' ∉ a2t := fun hm => h2 (List.mem_cons_of_mem _ hm)
      obtain ⟨he1, he2⟩ := ih a2t b1 b2 ht h1t h2t
      exact ⟨by rw [hc, he1], he2⟩

theorem hostOf_ne_empty {u : String} {h : List Char} (hh : hostOf u.data = some h) :
    u ≠ "" := by
  intro he
  subst he
  simp [hostOf] at hh

/-! ## Claim C9: screenshot filename generation -/

/-- C9 counterexample: changing the URL while holding timestamp and
description fixed can leave the filename unchanged — two different URLs with
the same hostname produce identical filenames, refuting "changing any one of
the three inputs ... produces a different filename". -/
theorem filename_url_change_collision_cex :
    screenshotFilename "2024-01-02T03:04:05.678Z" (some "https://example.com/a") "laptops" =
      screenshotFilename "2024-01-02T03:04:05.678Z" (some "https://example.com/b")
        "laptops" ∧
      ("https://example.com/a" : String) ≠ "https://example.com/b" := by
  constructor
  · rfl
  · decide

/-- C9 (amended): filename generation is a pure (hence deterministic)
function of (timestamp, URL, description); for parseable URLs and
underscore-free timestamps, two input triples produce the same filename
exactly when they agree on the sanitized timestamp, the hostname slug and
the 20-character base64 fragment of the description — so a change to one
input alters the filename only when it alters the corresponding component. -/
theorem filename_determined_by_components_amended
    (t1 t2 d1 d2 : List Char) (u1 u2 : String) (h1 h2 : List Char)
    (hu1 : '_' ∉ t1) (hu2 : '_' ∉ t2)
    (hh1 : hostOf u1.data = some h1) (hh2 : hostOf u2.data = some h2) :
    screenshotFilenameL t1 (some u1) d1 = screenshotFilenameL t2 (some u2) d2 ↔
      (sanitizeTs t1 = sanitizeTs t2 ∧ slugify h1 = slugify h2 ∧
        promptHash d1 = promptHash d2) := by
  have e1 : screenshotFilenameL t1 (some u1) d1 =
      "screenshot_".toList ++ (sanitizeTs t1 ++
        '_' :: (slugify h1 ++ '_' :: (promptHash d1 ++ ".png".toList))) := by
    unfold screenshotFilenameL domainFragment
    dsimp only
    rw [if_neg (hostOf_ne_empty hh1), hh1]
    simp [List.append_assoc]
  have e2 : screenshotFilenameL t2 (some u2) d2 =
      "screenshot_".toList ++ (sanitizeTs t2 ++
        '_' :: (slugify h2 ++ '_' :: (promptHash d2 ++ ".png".toList))) := by
    unfold screenshotFilenameL domainFragment
    dsimp only
    rw [if_neg (hostOf_ne_empty hh2), hh2]
    simp [List.append_assoc]
  rw [e1, e2]
  constructor
  · intro heq
    have hbody := List.append_cancel_left heq
    obtain ⟨hS, hrest⟩ := append_underscore_inj _ _ _ _ hbody
      (sanitizeTs_no_underscore hu1) (sanitizeTs_no_underscore hu2)
    obtain ⟨hG, hrest2⟩ := append_underscore_inj _ _ _ _ hrest
      (slugify_no_underscore h1) (slugify_no_underscore h2)
    exact ⟨hS, hG, List.append_cancel_right hrest2⟩
  · rintro ⟨hS, hG, hH⟩
    rw [hS, hG, hH]

/-- C9 witness: the amended component criterion applied at concrete inputs —
the filenames for two URLs differing in path, case of hostname, and query
coincide because all three components agree. -/
theorem filename_determined_by_components_amended_witness :
    screenshotFilenameL "2024-01-02T03:04:05.678Z".data
        (some "https://Example.com/x?q=1") "laptops".data =
      screenshotFilenameL "2024-01-02T03:04:05.678Z".data
        (some "https://example.com/y") "laptops".data :=
  (filename_determined_by_components_amended
    "2024-01-02T03:04:05.678Z".data "2024-01-02T03:04:05.678Z".data
    "laptops".data "laptops".data
    "https://Example.com/x?q=1" "https://example.com/y"
    "example.com".data "example.com".data
    (by decide) (by decide) (by decide) (by decide)).mpr
    ⟨by decide, by decide, by decide⟩

/-! ## Claim C5: navigation-plan parsing -/

/-- C5: the reply text is stripped of code fences before JSON parsing; the
fenced reply parses to an empty-step plan; and every generation failure,
missing response, empty cleaned reply, parse failure, non-object parse
result, or `null` result yields the empty options object instead of
raising. -/
theorem plan_parsing_fault_tolerant :
    analyzeNavigationNeeds (.reply "```json\n\x7b\"navigationSteps\":[]\x7d\n```") =
      { navigationSteps := some [] } ∧
    cleanReply "```json\n\x7b\"navigationSteps\":[]\x7d\n```" =
      "\x7b\"navigationSteps\":[]\x7d" ∧
    analyzeNavigationNeeds .fail = {} ∧
    analyzeNavigationNeeds .noResp = {} ∧
    (∀ s, cleanReply s = "" → analyzeNavigationNeeds (.reply s) = {}) ∧
    (∀ s, parseJson (cleanReply s) = none → analyzeNavigationNeeds (.reply s) = {}) ∧
    (∀ s j, parseJson (cleanReply s) = some j → jsTypeof j ≠ "object" →
      analyzeNavigationNeeds (.reply s) = {}) ∧
    (∀ s, parseJson (cleanReply s) = some .null →
      analyzeNavigationNeeds (.reply s) = {}) := by
  refine ⟨rfl, rfl, rfl, rfl, ?_, ?_, ?_, ?_⟩
  · intro s h
    unfold analyzeNavigationNeeds
    simp [h]
  · intro s h
    unfold analyzeNavigationNeeds
    by_cases hc : cleanReply s = "" <;> simp [hc, h]
  · intro s j h hne
    unfold analyzeNavigationNeeds
    by_cases hc : cleanReply s = "" <;> simp [hc, h, hne]
  · intro s h
    unfold analyzeNavigationNeeds
    by_cases hc : cleanReply s = "" <;> simp [hc, h, jsTypeof]

/-- C5 witness: the fault-tolerance cases applied to concrete replies — a
blank reply, a non-JSON reply, a numeric reply and a `null` reply all map to
the empty options object. -/
theorem plan_parsing_fault_tolerant_witness :
    analyzeNavigationNeeds (.reply "   ") = {} ∧
    analyzeNavigationNeeds (.reply "oops") = {} ∧
    analyzeNavigationNeeds (.reply "123") = {} ∧
    analyzeNavigationNeeds (.reply "null") = {} :=
  ⟨plan_parsing_fault_tolerant.2.2.2.2.1 "   " rfl,
    plan_parsing_fault_tolerant.2.2.2.2.2.1 "oops" rfl,
    plan_parsing_fault_tolerant.2.2.2.2.2.2.1 "123" (JVal.num 123 0) rfl (by decide),
    plan_parsing_fault_tolerant.2.2.2.2.2.2.2 "null" rfl⟩

/-! ## Helper lemmas: capture events in step traces -/

@[simp] theorem hasShot_append (l1 l2 : List Ev) :
    hasShot (l1 ++ l2) = (hasShot l1 || hasShot l2) := by
  simp [hasShot, List.any_append]

@[simp] theorem savedNav_append (l1 l2 : List Ev) :
    savedNav (l1 ++ l2) = (savedNav l1 || savedNav l2) := by
  simp [savedNav, List.any_append]

theorem shot_not_in_trySearchButtons (w : WEnv) :
    ∀ (l : List String) (c : Nat) (b : Bool),
      Ev.shot b ∉ (trySearchButtons w l c).2.1 := by
  intro l
  induction l with
  | nil => intro c b h; cases h
  | cons s rest ih =>
    intro c b h
    unfold trySearchButtons at h
    dsimp only at h
    repeat' split at h
    all_goals simp at h
    all_goals exact ih _ b h

theorem saved_not_in_trySearchButtons (w : WEnv) :
    ∀ (l : List String) (c : Nat) (tg : List String) (mm : List (String × String))
      (rf : String), Ev.saved tg mm rf ∉ (trySearchButtons w l c).2.1 := by
  intro l
  induction l with
  | nil => intro c tg mm rf h; cases h
  | cons s rest ih =>
    intro c tg mm rf h
    unfold trySearchButtons at h
    dsimp only at h
    repeat' split at h
    all_goals simp at h
    all_goals exact ih _ tg mm rf h

theorem shot_not_in_trySearchInputs (w : WEnv) (v : String) :
    ∀ (l : List String) (c : Nat) (b : Bool),
      Ev.shot b ∉ (trySearchInputs w v l c).2.1 := by
  intro l
  induction l with
  | nil => intro c b h; cases h
  | cons s rest ih =>
    intro c b h
    unfold trySearchInputs at h
    dsimp only at h
    repeat' split at h
    all_goals simp at h
    all_goals exact ih _ b h

theorem saved_not_in_trySearchInputs (w : WEnv) (v : String) :
    ∀ (l : List String) (c : Nat) (tg : List String) (mm : List (String × String))
      (rf : String), Ev.saved tg mm rf ∉ (trySearchInputs w v l c).2.1 := by
  intro l
  induction l with
  | nil => intro c tg mm rf h; cases h
  | cons s rest ih =>
    intro c tg mm rf h
    unfold trySearchInputs at h
    dsimp only at h
    repeat' split at h
    all_goals simp at h
    all_goals exact ih _ tg mm rf h

theorem shot_not_in_execSwitch (w : WEnv) (step : NavigationStep) (c : Nat) (b : Bool) :
    Ev.shot b ∉ (execSwitch w step c).2.1 := by
  intro h
  unfold execSwitch searchExec at h
  dsimp only at h
  repeat' split at h
  all_goals simp at h
  all_goals
    first
      | exact shot_not_in_trySearchButtons w _ _ b h
      | exact shot_not_in_trySearchInputs w _ _ _ b h
      | (rcases h with h | h <;>
          first
            | exact shot_not_in_trySearchButtons w _ _ b h
            | exact shot_not_in_trySearchInputs w _ _ _ b h)

theorem saved_not_in_execSwitch (w : WEnv) (step : NavigationStep) (c : Nat)
    (tg : List String) (mm : List (String × String)) (rf : String) :
    Ev.saved tg mm rf ∉ (execSwitch w step c).2.1 := by
  intro h
  unfold execSwitch searchExec at h
  dsimp only at h
  repeat' split at h
  all_goals simp at h
  all_goals
    first
      | exact saved_not_in_trySearchButtons w _ _ tg mm rf h
      | exact saved_not_in_trySearchInputs w _ _ _ tg mm rf h
      | (rcases h with h | h <;>
          first
            | exact saved_not_in_trySearchButtons w _ _ tg mm rf h
            | exact saved_not_in_trySearchInputs w _ _ _ tg mm rf h)

theorem saved_not_in_failed_save (w : WEnv) (p : String) (u : Option String)
    (tags : List String) (meta : List (String × String)) (c : Nat)
    (herr : (saveScreenshot w p u tags meta c).1 = Except.error ())
    (tg : List String) (mm : List (String × String)) (rf : String) :
    Ev.saved tg mm rf ∉ (saveScreenshot w p u tags meta c).2.1 := by
  intro h
  unfold saveScreenshot saveTier23 at h herr
  dsimp only at h herr
  repeat' split at h
  all_goals simp_all

/-! ## Claim C7: the Scroll step -/

/-- C7 counterexample: a Scroll step with no selector does nothing at all —
no scroll-to-bottom, no one-second wait — because the whole scroll branch,
including the wait, sits inside `if (step.selector)`; this refutes "when the
selector is absent, the window is scrolled to the bottom of the page" and
"either branch waits about one second afterward". -/
theorem scroll_without_selector_noop_cex :
    execSwitch baseEnv { type := "scroll" } 0 = (Except.ok (), [], 0) ∧
      Ev.scrollBottom ∉ (execSwitch baseEnv { type := "scroll" } 0).2.1 ∧
      Ev.waitMs 1000 ∉ (execSwitch baseEnv { type := "scroll" } 0).2.1 := by
  refine ⟨rfl, ?_, ?_⟩ <;> intro h <;> revert h <;> decide

/-- C7 (amended): a Scroll step with a truthy selector resolves it and
scrolls it into view, falling back to scrolling the page to its bottom on
resolution failure, and waits one second in either branch, always
succeeding; a Scroll step with an absent or empty selector performs no
action at all (and still succeeds). -/
theorem scroll_step_semantics_amended (w : WEnv) (c : Nat) (sel : String) :
    execSwitch w { type := "scroll" } c = (Except.ok (), [], c) ∧
      execSwitch w { type := "scroll", selector := some sel } c =
        (if sel = "" then ((Except.ok (), [], c) : Except Unit Unit × List Ev × Nat)
         else (Except.ok (),
           (if w.oracle .act c then
             [.waitSel sel true, .scrollIntoView sel, .waitMs 1000]
            else [.waitSel sel false, .warn (scrollFallbackMsg sel), .scrollBottom,
              .waitMs 1000]), c + 1)) := by
  constructor
  · rfl
  · by_cases hs : sel = "" <;> by_cases ho : w.oracle .act c = true <;>
      simp [execSwitch, truthyS, hs, ho]

/-! ## Claim C10: a Click step with neither text nor selector -/

/-- C10 counterexample: when the network-idle wait itself fails, a Click
step with neither text nor selector is reported as failed (the loop catch
fires), refuting the unconditional "is reported as successfully executed". -/
theorem empty_click_idle_timeout_failure_cex :
    stepBody { baseEnv with oracle := fun _ _ => false } 0 { type := "click" } "u" 0 =
      ("u", [Ev.stepStart 0, Ev.waitLoad false, Ev.stepFail 0], 1) := by
  rfl

/-- C10 (amended): a Click step with neither text nor selector performs no
click and no selector wait — its only action is the network-idle wait of up
to ten seconds — and it is never rejected for its shape: when the wait
succeeds the step is logged as successfully executed, and when the wait
fails the step is reported as failed like any other step error. -/
theorem empty_click_step_semantics_amended (w : WEnv) (i c : Nat) (lastUrl : String) :
    execSwitch w { type := "click" } c =
      ((if w.oracle .act c then Except.ok () else Except.error ()),
        [Ev.waitLoad (w.oracle .act c)], c + 1) ∧
      hasClick (execSwitch w { type := "click" } c).2.1 = false ∧
      (w.oracle .act c = false →
        stepBody w i { type := "click" } lastUrl c =
          (lastUrl, [Ev.stepStart i, Ev.waitLoad false, Ev.stepFail i], c + 1)) ∧
      (w.oracle .act c = true →
        Ev.stepOk i ∈ (stepBody w i { type := "click" } lastUrl c).2.1) := by
  have hA : execSwitch w { type := "click" } c =
      ((if w.oracle .act c then Except.ok () else Except.error ()),
        [Ev.waitLoad (w.oracle .act c)], c + 1) := by
    by_cases ho : w.oracle .act c = true <;> simp [execSwitch, truthyS, ho]
  refine ⟨hA, ?_, ?_, ?_⟩
  · rw [hA]
    rfl
  · intro ho
    unfold stepBody
    rw [hA, ho]
    rfl
  · intro ho
    unfold stepBody
    rw [hA, ho]
    dsimp only
    cases hcap : (captureAfterStep w { type := "click" } lastUrl (c + 1)).1 with
    | ok u => simp
    | error e => simp

/-- C10 witness: the amended semantics at concrete worlds — a failed
network-idle wait makes the empty Click step fail, and a successful wait
makes it report success. -/
theorem empty_click_step_semantics_amended_witness :
    stepBody { baseEnv with oracle := fun _ _ => false } 0 { type := "click" } "u" 0 =
      ("u", [Ev.stepStart 0, Ev.waitLoad false, Ev.stepFail 0], 1) ∧
      Ev.stepOk 0 ∈ (stepBody baseEnv 0 { type := "click" } "u" 0).2.1 :=
  ⟨(empty_click_step_semantics_amended { baseEnv with oracle := fun _ _ => false }
      0 0 "u").2.2.1 rfl,
    (empty_click_step_semantics_amended baseEnv 0 0 "u").2.2.2 rfl⟩

/-! ## Helper lemmas: search-phase trace shapes -/

theorem warn_not_in_trySearchButtons (w : WEnv) :
    ∀ (l : List String) (c : Nat) (m : String),
      Ev.warn m ∉ (trySearchButtons w l c).2.1 := by
  intro l
  induction l with
  | nil => intro c m h; cases h
  | cons s rest ih =>
    intro c m h
    unfold trySearchButtons at h
    dsimp only at h
    repeat' split at h
    all_goals simp at h
    all_goals exact ih _ m h

theorem fill_not_in_trySearchButtons (w : WEnv) :
    ∀ (l : List String) (c : Nat) (sel val : String) (b : Bool),
      Ev.fillSel sel val b ∉ (trySearchButtons w l c).2.1 := by
  intro l
  induction l with
  | nil => intro c sel val b h; cases h
  | cons s rest ih =>
    intro c sel val b h
    unfold trySearchButtons at h
    dsimp only at h
    repeat' split at h
    all_goals simp at h
    all_goals exact ih _ sel val b h

theorem enter_not_in_trySearchButtons (w : WEnv) :
    ∀ (l : List String) (c : Nat), Ev.pressEnter ∉ (trySearchButtons w l c).2.1 := by
  intro l
  induction l with
  | nil => intro c h; cases h
  | cons s rest ih =>
    intro c h
    unfold trySearchButtons at h
    dsimp only at h
    repeat' split at h
    all_goals simp at h
    all_goals exact ih _ h

theorem warn_not_in_trySearchInputs (w : WEnv) (v : String) :
    ∀ (l : List String) (c : Nat) (m : String),
      Ev.warn m ∉ (trySearchInputs w v l c).2.1 := by
  intro l
  induction l with
  | nil => intro c m h; cases h
  | cons s rest ih =>
    intro c m h
    unfold trySearchInputs at h
    dsimp only at h
    repeat' split at h
    all_goals simp at h
    all_goals exact ih _ m h

theorem trySearchButtons_true_shape (w : WEnv) :
    ∀ (l : List String) (c : Nat), (trySearchButtons w l c).1 = true →
      ∃ bsel ∈ l, ∃ pre,
        (trySearchButtons w l c).2.1 =
          pre ++ [Ev.waitSel bsel true, Ev.clickSel bsel true, Ev.waitMs 1000] := by
  intro l
  induction l with
  | nil => intro c h; simp [trySearchButtons] at h
  | cons s rest ih =>
    intro c h
    unfold trySearchButtons at h ⊢
    dsimp only at h ⊢
    cases hb1 : w.oracle .act c
    · simp only [hb1, Bool.false_eq_true, ite_false] at h ⊢
      obtain ⟨bsel, hmem, pre, hpre⟩ := ih _ h
      exact ⟨bsel, List.mem_cons_of_mem _ hmem, Ev.waitSel s false :: pre, by simp [hpre]⟩
    · simp only [hb1, ite_true] at h ⊢
      cases hb2 : w.oracle .act (c + 1)
      · simp only [hb2, Bool.false_eq_true, ite_false] at h ⊢
        obtain ⟨bsel, hmem, pre, hpre⟩ := ih _ h
        exact ⟨bsel, List.mem_cons_of_mem _ hmem,
          Ev.waitSel s true :: Ev.clickSel s false :: pre, by simp [hpre]⟩
      · simp only [hb2, ite_true] at h ⊢
        exact ⟨s, List.mem_cons_self _ _, [], rfl⟩

theorem trySearchInputs_true_shape (w : WEnv) (v : String) :
    ∀ (l : List String) (c : Nat), (trySearchInputs w v l c).1 = true →
      ∃ isel ∈ l, ∃ pre,
        (trySearchInputs w v l c).2.1 =
          pre ++ [Ev.waitSel isel true, Ev.fillSel isel v true, Ev.pressEnter,
            Ev.waitLoad true] := by
  intro l
  induction l with
  | nil => intro c h; simp [trySearchInputs] at h
  | cons s rest ih =>
    intro c h
    unfold trySearchInputs at h ⊢
    dsimp only at h ⊢
    cases hb1 : w.oracle .act c
    · simp only [hb1, Bool.false_eq_true, ite_false] at h ⊢
      obtain ⟨isel, hmem, pre, hpre⟩ := ih _ h
      exact ⟨isel, List.mem_cons_of_mem _ hmem, Ev.waitSel s false :: pre, by simp [hpre]⟩
    · simp only [hb1, ite_true] at h ⊢
      cases hb2 : w.oracle .act (c + 1)
      · simp only [hb2, Bool.false_eq_true, ite_false] at h ⊢
        obtain ⟨isel, hmem, pre, hpre⟩ := ih _ h
        exact ⟨isel, List.mem_cons_of_mem _ hmem,
          Ev.waitSel s true :: Ev.fillSel s v false :: pre, by simp [hpre]⟩
      · simp only [hb2, ite_true] at h ⊢
        cases hb3 : w.oracle .act (c + 2)
        · simp only [hb3, Bool.false_eq_true, ite_false] at h ⊢
          obtain ⟨isel, hmem, pre, hpre⟩ := ih _ h
          exact ⟨isel, List.mem_cons_of_mem _ hmem,
            Ev.waitSel s true :: Ev.fillSel s v true :: Ev.pressEnter ::
              Ev.waitLoad false :: pre, by simp [hpre]⟩
        · simp only [hb3, ite_true] at h ⊢
          exact ⟨s, List.mem_cons_self _ _, [], rfl⟩

/-! ## Claim C8: the Search step -/

/-- C8 counterexample: when no search-trigger locator resolves, the step is
not reported as failed — the loop's failure report (`stepFail`) never fires
and the step is logged as successfully executed (`stepOk`) right after the
warning; this refutes "the step is reported as failed". -/
theorem search_trigger_missing_reported_success_cex :
    stepBody { baseEnv with oracle := (fun _ _ => false), urlAt := (fun _ => "u") } 0
      { type := "search", selector := some "s", value := some "laptops" } "u" 0 =
      ("u",
        [Ev.stepStart 0,
          Ev.waitSel "button[aria-label*=\"search\"]" false,
          Ev.waitSel "button[aria-label*=\"Search\"]" false,
          Ev.waitSel "svg[alt=\"search\"]" false,
          Ev.waitSel "svg[alt=\"Search\"]" false,
          Ev.waitSel "button svg[alt=\"search\"]" false,
          Ev.waitSel "button svg[alt=\"Search\"]" false,
          Ev.warn noSearchButtonMsg,
          Ev.stepOk 0,
          Ev.urlRead "u"], 7) ∧
      Ev.stepFail 0 ∉ (stepBody
        { baseEnv with oracle := (fun _ _ => false), urlAt := (fun _ => "u") } 0
        { type := "search", selector := some "s", value := some "laptops" } "u" 0).2.1 := by
  constructor
  · rfl
  · intro h
    revert h
    decide

/-- C8 (amended): the Search step is two-phase over fixed ordered fallback
lists and never raises, whatever mix of locator outcomes occurs: in every
world the step completes as successfully executed; when no trigger locator
resolves (any pattern of wait or click failures), the distinct trigger
warning is the only warning, the input phase is skipped (no fill and no
Enter press), and the trace is exactly the trigger attempts plus that
warning; when a trigger resolves, it is some candidate of the fixed trigger
list, clicked after its visibility wait; when additionally no input locator
resolves (any pattern of wait, fill or idle-wait failures), the distinct
input warning is the only warning; when an input resolves, it is some
candidate of the fixed input list, filled with the value and submitted via
Enter with a network-idle wait, and no warning at all is logged; the two
warnings differ. -/
theorem search_two_phase_amended (w : WEnv) (c : Nat) (s v : String)
    (hs : s ≠ "") (hv : v ≠ "") :
    (execSwitch w { type := "search", selector := some s, value := some v } c).1 =
        Except.ok () ∧
    ((trySearchButtons w searchButtonSelectors c).1 = false →
      execSwitch w { type := "search", selector := some s, value := some v } c =
        (Except.ok (),
          (trySearchButtons w searchButtonSelectors c).2.1 ++
            [Ev.warn noSearchButtonMsg],
          (trySearchButtons w searchButtonSelectors c).2.2) ∧
      (∀ sel val b, Ev.fillSel sel val b ∉
        (execSwitch w { type := "search", selector := some s, value := some v } c).2.1) ∧
      Ev.pressEnter ∉
        (execSwitch w { type := "search", selector := some s, value := some v } c).2.1 ∧
      (∀ m, Ev.warn m ∈
          (execSwitch w { type := "search", selector := some s, value := some v } c).2.1 →
        m = noSearchButtonMsg)) ∧
    ((trySearchButtons w searchButtonSelectors c).1 = true →
      ∃ bsel ∈ searchButtonSelectors, ∃ pre,
        (trySearchButtons w searchButtonSelectors c).2.1 =
          pre ++ [Ev.waitSel bsel true, Ev.clickSel bsel true, Ev.waitMs 1000]) ∧
    ((trySearchButtons w searchButtonSelectors c).1 = true →
      (trySearchInputs w v searchInputSelectors
          (trySearchButtons w searchButtonSelectors c).2.2).1 = false →
      execSwitch w { type := "search", selector := some s, value := some v } c =
        (Except.ok (),
          (trySearchButtons w searchButtonSelectors c).2.1 ++
            (trySearchInputs w v searchInputSelectors
              (trySearchButtons w searchButtonSelectors c).2.2).2.1 ++
            [Ev.warn noSearchInputMsg],
          (trySearchInputs w v searchInputSelectors
            (trySearchButtons w searchButtonSelectors c).2.2).2.2) ∧
      (∀ m, Ev.warn m ∈
          (execSwitch w { type := "search", selector := some s, value := some v } c).2.1 →
        m = noSearchInputMsg)) ∧
    ((trySearchButtons w searchButtonSelectors c).1 = true →
      (trySearchInputs w v searchInputSelectors
          (trySearchButtons w searchButtonSelectors c).2.2).1 = true →
      execSwitch w { type := "search", selector := some s, value := some v } c =
        (Except.ok (),
          (trySearchButtons w searchButtonSelectors c).2.1 ++
            (trySearchInputs w v searchInputSelectors
              (trySearchButtons w searchButtonSelectors c).2.2).2.1,
          (trySearchInputs w v searchInputSelectors
            (trySearchButtons w searchButtonSelectors c).2.2).2.2) ∧
      (∀ m, Ev.warn m ∉
        (execSwitch w { type := "search", selector := some s, value := some v } c).2.1) ∧
      ∃ isel ∈ searchInputSelectors, ∃ pre,
        (trySearchInputs w v searchInputSelectors
            (trySearchButtons w searchButtonSelectors c).2.2).2.1 =
          pre ++ [Ev.waitSel isel true, Ev.fillSel isel v true, Ev.pressEnter,
            Ev.waitLoad true]) ∧
    noSearchButtonMsg ≠ noSearchInputMsg := by
  have hE : execSwitch w { type := "search", selector := some s, value := some v } c
      = searchExec w v c := by
    simp [execSwitch, truthyS, hs, hv]
  refine ⟨?_, ?_, ?_, ?_, ?_, by decide⟩
  · rw [hE]
    unfold searchExec
    dsimp only
    split
    · split <;> rfl
    · rfl
  · intro hb
    have he2 : execSwitch w { type := "search", selector := some s, value := some v } c
        = (Except.ok (),
            (trySearchButtons w searchButtonSelectors c).2.1 ++
              [Ev.warn noSearchButtonMsg],
            (trySearchButtons w searchButtonSelectors c).2.2) := by
      rw [hE]
      unfold searchExec
      dsimp only
      rw [hb]
      simp
    refine ⟨he2, ?_, ?_, ?_⟩
    · intro sel val b hmem
      rw [he2] at hmem
      dsimp only at hmem
      rcases List.mem_append.mp hmem with hmem | hmem
      · exact fill_not_in_trySearchButtons w _ _ sel val b hmem
      · simp at hmem
    · intro hmem
      rw [he2] at hmem
      dsimp only at hmem
      rcases List.mem_append.mp hmem with hmem | hmem
      · exact enter_not_in_trySearchButtons w _ _ hmem
      · simp at hmem
    · intro m hmem
      rw [he2] at hmem
      dsimp only at hmem
      rcases List.mem_append.mp hmem with hmem | hmem
      · exact absurd hmem (warn_not_in_trySearchButtons w _ _ m)
      · simp at hmem
        exact hmem
  · intro hb
    exact trySearchButtons_true_shape w _ _ hb
  · intro hb hi
    have he2 : execSwitch w { type := "search", selector := some s, value := some v } c
        = (Except.ok (),
            (trySearchButtons w searchButtonSelectors c).2.1 ++
              (trySearchInputs w v searchInputSelectors
                (trySearchButtons w searchButtonSelectors c).2.2).2.1 ++
              [Ev.warn noSearchInputMsg],
            (trySearchInputs w v searchInputSelectors
              (trySearchButtons w searchButtonSelectors c).2.2).2.2) := by
      rw [hE]
      unfold searchExec
      dsimp only
      rw [hb, hi]
      simp
    refine ⟨he2, ?_⟩
    intro m hmem
    rw [he2] at hmem
    dsimp only at hmem
    rcases List.mem_append.mp hmem with hmem | hmem
    · rcases List.mem_append.mp hmem with hmem | hmem
      · exact absurd hmem (warn_not_in_trySearchButtons w _ _ m)
      · exact absurd hmem (warn_not_in_trySearchInputs w v _ _ m)
    · simp at hmem
      exact hmem
  · intro hb hi
    have he2 : execSwitch w { type := "search", selector := some s, value := some v } c
        = (Except.ok (),
            (trySearchButtons w searchButtonSelectors c).2.1 ++
              (trySearchInputs w v searchInputSelectors
                (trySearchButtons w searchButtonSelectors c).2.2).2.1,
            (trySearchInputs w v searchInputSelectors
              (trySearchButtons w searchButtonSelectors c).2.2).2.2) := by
      rw [hE]
      unfold searchExec
      dsimp only
      rw [hb, hi]
      simp
    refine ⟨he2, ?_, trySearchInputs_true_shape w v _ _ hi⟩
    intro m hmem
    rw [he2] at hmem
    dsimp only at hmem
    rcases List.mem_append.mp hmem with hmem | hmem
    · exact absurd hmem (warn_not_in_trySearchButtons w _ _ m)
    · exact absurd hmem (warn_not_in_trySearchInputs w v _ _ m)

/-- C8 witness: the amended Search semantics at concrete worlds exercising
mixed failure patterns — a trigger whose click is rejected after a
successful visibility wait followed by exhaustion, resolution via the
second trigger candidate, an input filled and submitted whose network-idle
wait times out followed by exhaustion, and resolution via the second input
candidate. -/
theorem search_two_phase_amended_witness :
    (execSwitch { baseEnv with oracle := (fun _ t => decide (t < 4)) }
        { type := "search", selector := some "s", value := some "laptops" } 0).1 =
      Except.ok () ∧
    execSwitch { baseEnv with oracle := (fun k t => decide (k = PrimKind.act ∧ t = 0)) }
        { type := "search", selector := some "s", value := some "laptops" } 0 =
      (Except.ok (),
        [Ev.waitSel "button[aria-label*=\"search\"]" true,
          Ev.clickSel "button[aria-label*=\"search\"]" false,
          Ev.waitSel "button[aria-label*=\"Search\"]" false,
          Ev.waitSel "svg[alt=\"search\"]" false,
          Ev.waitSel "svg[alt=\"Search\"]" false,
          Ev.waitSel "button svg[alt=\"search\"]" false,
          Ev.waitSel "button svg[alt=\"Search\"]" false,
          Ev.warn noSearchButtonMsg], 7) ∧
    (∃ bsel ∈ searchButtonSelectors, ∃ pre,
      (trySearchButtons { baseEnv with oracle := (fun _ t => decide (t ≠ 0)) }
          searchButtonSelectors 0).2.1 =
        pre ++ [Ev.waitSel bsel true, Ev.clickSel bsel true, Ev.waitMs 1000]) ∧
    execSwitch { baseEnv with oracle := (fun _ t => decide (t < 4)) }
        { type := "search", selector := some "s", value := some "laptops" } 0 =
      (Except.ok (),
        [Ev.waitSel "button[aria-label*=\"search\"]" true,
          Ev.clickSel "button[aria-label*=\"search\"]" true,
          Ev.waitMs 1000,
          Ev.waitSel "input[type=\"search\"]" true,
          Ev.fillSel "input[type=\"search\"]" "laptops" true,
          Ev.pressEnter,
          Ev.waitLoad false,
          Ev.waitSel "input[name=\"search\"]" false,
          Ev.waitSel "input#search" false,
          Ev.waitSel "input[aria-label*=\"Search\"]" false,
          Ev.waitSel "input[aria-label*=\"search\"]" false,
          Ev.warn noSearchInputMsg], 9) ∧
    (∃ isel ∈ searchInputSelectors, ∃ pre,
      (trySearchInputs { baseEnv with oracle := (fun _ t => decide (t ≠ 2)) } "laptops"
          searchInputSelectors
          (trySearchButtons { baseEnv with oracle := (fun _ t => decide (t ≠ 2)) }
            searchButtonSelectors 0).2.2).2.1 =
        pre ++ [Ev.waitSel isel true, Ev.fillSel isel "laptops" true, Ev.pressEnter,
          Ev.waitLoad true]) :=
  ⟨(search_two_phase_amended { baseEnv with oracle := (fun _ t => decide (t < 4)) } 0 "s"
      "laptops" (by decide) (by decide)).1,
    ((search_two_phase_amended
        { baseEnv with oracle := (fun k t => decide (k = PrimKind.act ∧ t = 0)) } 0 "s"
        "laptops" (by decide) (by decide)).2.1 rfl).1,
    (search_two_phase_amended { baseEnv with oracle := (fun _ t => decide (t ≠ 0)) } 0 "s"
      "laptops" (by decide) (by decide)).2.2.1 rfl,
    ((search_two_phase_amended { baseEnv with oracle := (fun _ t => decide (t < 4)) } 0 "s"
        "laptops" (by decide) (by decide)).2.2.2.1 rfl rfl).1,
    ((search_two_phase_amended { baseEnv with oracle := (fun _ t => decide (t ≠ 2)) } 0 "s"
        "laptops" (by decide) (by decide)).2.2.2.2.1 rfl rfl).2.2⟩

/-! ## Helper lemmas: the post-step capture in closed form -/

theorem captureAfterStep_same (w : WEnv) (step : NavigationStep) (lastUrl : String)
    (c : Nat) (hu : w.urlAt c = lastUrl) :
    captureAfterStep w step lastUrl c = (Except.ok lastUrl, [Ev.urlRead lastUrl], c + 1) := by
  unfold captureAfterStep
  dsimp only
  rw [hu]
  simp

theorem captureAfterStep_diff_shotFail (w : WEnv) (step : NavigationStep)
    (lastUrl : String) (c : Nat) (hu : w.urlAt c ≠ lastUrl)
    (hb : w.oracle .shot (c + 1) = false) :
    captureAfterStep w step lastUrl c =
      (Except.error (), [Ev.urlRead (w.urlAt c), Ev.shot false], c + 2) := by
  unfold captureAfterStep
  dsimp only
  simp only [ne_eq, hu, not_false_eq_true, ite_true, if_true, hb, Bool.false_eq_true,
    ite_false]

theorem captureAfterStep_diff_shotOk (w : WEnv) (step : NavigationStep)
    (lastUrl : String) (c : Nat) (hu : w.urlAt c ≠ lastUrl)
    (hb : w.oracle .shot (c + 1) = true) :
    captureAfterStep w step lastUrl c =
      ((match (saveScreenshot w ("Navigation - " ++ w.urlAt c) (some (w.urlAt c))
          ["navigation_step", "interaction"]
          [("stepType", step.type), ("stepDetails", serializeStep step),
            ("pageTitle", w.title)] (c + 2)).1 with
        | Except.ok _ => Except.ok (w.urlAt c)
        | Except.error _ => Except.error ()),
        Ev.urlRead (w.urlAt c) :: Ev.shot true ::
          (saveScreenshot w ("Navigation - " ++ w.urlAt c) (some (w.urlAt c))
            ["navigation_step", "interaction"]
            [("stepType", step.type), ("stepDetails", serializeStep step),
              ("pageTitle", w.title)] (c + 2)).2.1,
        (saveScreenshot w ("Navigation - " ++ w.urlAt c) (some (w.urlAt c))
          ["navigation_step", "interaction"]
          [("stepType", step.type), ("stepDetails", serializeStep step),
            ("pageTitle", w.title)] (c + 2)).2.2) := by
  unfold captureAfterStep
  dsimp only
  simp only [ne_eq, hu, not_false_eq_true, ite_true, if_true, hb]
  cases (saveScreenshot w ("Navigation - " ++ w.urlAt c) (some (w.urlAt c))
      ["navigation_step", "interaction"]
      [("stepType", step.type), ("stepDetails", serializeStep step),
        ("pageTitle", w.title)] (c + 2)).1 with
  | ok r => rfl
  | error e => rfl

theorem stepBody_err (w : WEnv) (i : Nat) (step : NavigationStep) (lastUrl : String)
    (c : Nat) (herr : (execSwitch w step c).1 = Except.error ()) :
    stepBody w i step lastUrl c =
      (lastUrl, Ev.stepStart i :: (execSwitch w step c).2.1 ++ [Ev.stepFail i],
        (execSwitch w step c).2.2) := by
  unfold stepBody
  dsimp only
  rw [herr]

theorem stepBody_ok (w : WEnv) (i : Nat) (step : NavigationStep) (lastUrl : String)
    (c : Nat) (hok : (execSwitch w step c).1 = Except.ok ()) :
    stepBody w i step lastUrl c =
      (match (captureAfterStep w step lastUrl (execSwitch w step c).2.2).1 with
       | Except.ok newLast =>
         (newLast, Ev.stepStart i :: (execSwitch w step c).2.1 ++ Ev.stepOk i ::
           (captureAfterStep w step lastUrl (execSwitch w step c).2.2).2.1,
           (captureAfterStep w step lastUrl (execSwitch w step c).2.2).2.2)
       | Except.error _ =>
         (lastUrl, Ev.stepStart i :: (execSwitch w step c).2.1 ++ Ev.stepOk i ::
           (captureAfterStep w step lastUrl (execSwitch w step c).2.2).2.1 ++
             [Ev.stepFail i],
           (captureAfterStep w step lastUrl (execSwitch w step c).2.2).2.2)) := by
  unfold stepBody
  dsimp only
  rw [hok]

/-! ## Claim C3: mid-plan capture on URL change -/

/-- C3 counterexample: when a step raises after changing the page (here the
click lands but the network-idle wait times out), no URL comparison and no
mid-plan capture happen at all, even though the page URL now differs from
the last observed URL; this refutes "a mid-plan evidence capture is
performed if and only if the URL differs from the last observed URL". -/
theorem midplan_capture_skipped_on_step_error_cex :
    stepBody { baseEnv with oracle := (fun _ t => decide (t < 2)), urlAt := (fun _ => "https://site.example/changed") } 0
      { type := "click", selector := some "a" } "https://site.example/" 0 =
      ("https://site.example/",
        [Ev.stepStart 0, Ev.waitSel "a" true, Ev.clickSel "a" true, Ev.waitLoad false,
          Ev.stepFail 0], 3) ∧
    ({ baseEnv with oracle := (fun _ t => decide (t < 2)), urlAt := (fun _ => "https://site.example/changed") } : WEnv).urlAt 3 ≠
      "https://site.example/" := by
  constructor
  · rfl
  · decide

/-- C3 (amended): the URL comparison happens only after a step that
completed without raising — a step that raises performs no comparison and
no capture, and leaves the tracked URL unchanged; after a non-raising step,
the URL is read, a capture is attempted exactly when it differs from the
last observed URL, and the tracked URL is updated to the new URL when the
capture is successfully persisted (a persisted mid-plan capture in the
trace implies the update). -/
theorem midplan_capture_iff_url_change_amended (w : WEnv) (i c : Nat)
    (step : NavigationStep) (lastUrl : String) :
    ((execSwitch w step c).1 = Except.error () →
      stepBody w i step lastUrl c =
        (lastUrl, Ev.stepStart i :: (execSwitch w step c).2.1 ++ [Ev.stepFail i],
          (execSwitch w step c).2.2)) ∧
    (∀ b, Ev.shot b ∉ (execSwitch w step c).2.1) ∧
    ((execSwitch w step c).1 = Except.ok () →
      (Ev.urlRead (w.urlAt (execSwitch w step c).2.2) ∈
        (stepBody w i step lastUrl c).2.1) ∧
      (w.urlAt (execSwitch w step c).2.2 = lastUrl →
        (∀ b, Ev.shot b ∉ (stepBody w i step lastUrl c).2.1) ∧
        (stepBody w i step lastUrl c).1 = lastUrl) ∧
      (w.urlAt (execSwitch w step c).2.2 ≠ lastUrl →
        (Ev.shot (w.oracle .shot ((execSwitch w step c).2.2 + 1)) ∈
          (stepBody w i step lastUrl c).2.1) ∧
        (∀ mm rf, Ev.saved ["navigation_step", "interaction"] mm rf ∈
            (stepBody w i step lastUrl c).2.1 →
          (stepBody w i step lastUrl c).1 = w.urlAt (execSwitch w step c).2.2))) := by
  refine ⟨stepBody_err w i step lastUrl c, shot_not_in_execSwitch w step c, ?_⟩
  intro hok
  rw [stepBody_ok w i step lastUrl c hok]
  by_cases hu : w.urlAt (execSwitch w step c).2.2 = lastUrl
  · rw [captureAfterStep_same w step lastUrl _ hu]
    dsimp only
    refine ⟨?_, ?_, fun hne => absurd hu hne⟩
    · rw [hu]
      simp
    · intro _
      refine ⟨?_, rfl⟩
      intro b hmem
      simp at hmem
      exact shot_not_in_execSwitch w step c b hmem
  · by_cases hb : w.oracle .shot ((execSwitch w step c).2.2 + 1) = true
    · rw [captureAfterStep_diff_shotOk w step lastUrl _ hu hb]
      cases hsv : (saveScreenshot w
          ("Navigation - " ++ w.urlAt (execSwitch w step c).2.2)
          (some (w.urlAt (execSwitch w step c).2.2)) ["navigation_step", "interaction"]
          [("stepType", step.type), ("stepDetails", serializeStep step),
            ("pageTitle", w.title)] ((execSwitch w step c).2.2 + 2)).1 with
      | ok r =>
        dsimp only
        refine ⟨by simp, fun heq => absurd heq hu, fun _ => ⟨by rw [hb]; simp, ?_⟩⟩
        intro mm rf _
        rfl
      | error e =>
        dsimp only
        refine ⟨by simp, fun heq => absurd heq hu, fun _ => ⟨by rw [hb]; simp, ?_⟩⟩
        intro mm rf hmem
        simp at hmem
        rcases hmem with hmem | hmem
        · exact absurd hmem (saved_not_in_execSwitch w step c _ _ _)
        · exact absurd hmem
            (saved_not_in_failed_save w _ _ _ _ _ hsv ["navigation_step", "interaction"]
              mm rf)
    · simp only [Bool.not_eq_true] at hb
      rw [captureAfterStep_diff_shotFail w step lastUrl _ hu hb]
      dsimp only
      refine ⟨by simp, fun heq => absurd heq hu, fun _ => ⟨by rw [hb]; simp, ?_⟩⟩
      intro mm rf hmem
      simp at hmem
      exact absurd hmem (saved_not_in_execSwitch w step c _ _ _)

/-- C3 witness: the amended capture rule at concrete worlds — a changed URL
after a clean step yields a persisted mid-plan capture and an updated
tracked URL, and an unchanged URL yields no capture attempt. -/
theorem midplan_capture_iff_url_change_amended_witness :
    (Ev.urlRead "https://site.example/" ∈
      (stepBody baseEnv 0 { type := "wait", duration := some 50 }
        "https://site.example/" 0).2.1) ∧
    (∀ b, Ev.shot b ∉ (stepBody baseEnv 0 { type := "wait", duration := some 50 }
      "https://site.example/" 0).2.1) ∧
    (Ev.shot true ∈ (stepBody { baseEnv with urlAt := (fun _ => "https://other.example/") }
      0 { type := "wait", duration := some 50 } "https://site.example/" 0).2.1) ∧
    (stepBody { baseEnv with urlAt := (fun _ => "https://other.example/") }
      0 { type := "wait", duration := some 50 } "https://site.example/" 0).1 =
      "https://other.example/" := by
  have h1 := (midplan_capture_iff_url_change_amended baseEnv 0 0
    { type := "wait", duration := some 50 } "https://site.example/").2.2 rfl
  have h2 := (midplan_capture_iff_url_change_amended
    { baseEnv with urlAt := (fun _ => "https://other.example/") } 0 0
    { type := "wait", duration := some 50 } "https://site.example/").2.2 rfl
  refine ⟨h1.1, (h1.2.1 rfl).1, ?_, ?_⟩
  · have := (h2.2.2 (by decide)).1
    exact this
  · exact (h2.2.2 (by decide)).2 [("stepType", "wait"),
      ("stepDetails", serializeStep { type := "wait", duration := some 50 }),
      ("pageTitle", "T")] (recordRef (screenshotFilename "2024-01-02T03:04:05.678Z"
        (some "https://other.example/") "Navigation - https://other.example/"))
      (by decide)

/-! ## Claim C1: step failures never abort the run -/

/-- C1: with the browser, navigation, screenshots, persistence and
accessibility snapshot cooperating, a run over any plan — with arbitrary
outcomes for every step action, so including plans whose steps all fail —
returns successfully, attempts every step in order, and reaches the
final-capture check and the accessibility-tree harvest. -/
theorem step_failure_never_aborts_run (w : WEnv) (url : String)
    (steps : List NavigationStep)
    (hl : w.launchOk = true) (hg : w.gotoRes = .ok)
    (h1 : ∀ t, w.oracle .shot t = true) (h2 : ∀ t, w.oracle .tierRecord t = true)
    (h3 : ∀ t, w.oracle .tierUpload t = true) (h4 : ∀ t, w.oracle .tierGetUrl t = true)
    (t : Option AxT) (hax : w.axRes = some t) :
    ∃ pc evs c2,
      getPageContent w url { navigationSteps := some steps } = (Except.ok pc, evs, c2) ∧
        Ev.finalCheck ∈ evs ∧ Ev.axTry ∈ evs ∧
        ∀ i, i < steps.length → Ev.stepStart i ∈ evs := by
  obtain ⟨pc, evs, c2, heq, hfc, haxm, hsub⟩ :=
    gpc_ok w url { navigationSteps := some steps } hl hg h1 h2 h3 h4 t hax
  refine ⟨pc, evs, c2, heq, hfc, haxm, ?_⟩
  intro i hi
  have hmem := runSteps_stepStart w steps 0 url
    (initialCapture w url (popupPhase w 0).2).2.2 i hi
  simp only [Nat.zero_add] at hmem
  exact hsub _ hmem

/-- C1 witness: a one-step plan whose only step fails (its selector never
resolves) still produces a successful run that reaches the final check and
the harvest, with the step attempted. -/
theorem step_failure_never_aborts_run_witness :
    ∃ pc evs c2,
      getPageContent { baseEnv with oracle := (fun k _ => decide (k ≠ PrimKind.act)) }
          "https://site.example/"
          { navigationSteps := some [{ type := "click", selector := some "#missing" }] } =
        (Except.ok pc, evs, c2) ∧
        Ev.finalCheck ∈ evs ∧ Ev.axTry ∈ evs ∧
        ∀ i, i < ([{ type := "click", selector := some "#missing" }] :
          List NavigationStep).length → Ev.stepStart i ∈ evs :=
  step_failure_never_aborts_run
    { baseEnv with oracle := (fun k _ => decide (k ≠ PrimKind.act)) }
    "https://site.example/" [{ type := "click", selector := some "#missing" }]
    rfl rfl (fun _ => rfl) (fun _ => rfl) (fun _ => rfl) (fun _ => rfl)
    (some AxT.tree) rfl

/-! ## Helper lemmas: persistence exhaustion -/

theorem axTry_not_in_saveScreenshot (w : WEnv) (p : String) (u : Option String)
    (tags : List String) (meta : List (String × String)) (c : Nat) :
    Ev.axTry ∉ (saveScreenshot w p u tags meta c).2.1 := by
  intro h
  unfold saveScreenshot saveTier23 at h
  dsimp only at h
  repeat' split at h
  all_goals simp at h

theorem saveScreenshot_allFail (w : WEnv) (p : String) (u : Option String)
    (tags : List String) (meta : List (String × String)) (c : Nat)
    (h2 : ∀ t, w.oracle .tierRecord t = false) (h3 : ∀ t, w.oracle .tierUpload t = false)
    (h5 : ∀ t, w.oracle .tierLocal t = false) :
    (saveScreenshot w p u tags meta c).1 = Except.error () := by
  unfold saveScreenshot saveTier23
  dsimp only
  simp only [h2, h3, h5, Bool.false_and, Bool.false_eq_true, ite_false]
  split <;> rfl

theorem initialCapture_allFail (w : WEnv) (url : String) (c : Nat)
    (h1 : ∀ t, w.oracle .shot t = true) (h2 : ∀ t, w.oracle .tierRecord t = false)
    (h3 : ∀ t, w.oracle .tierUpload t = false) (h5 : ∀ t, w.oracle .tierLocal t = false) :
    (initialCapture w url c).1 = Except.error () := by
  unfold initialCapture
  dsimp only
  rw [h1]
  rw [saveScreenshot_allFail w _ _ _ _ (c + 1) h2 h3 h5]
  simp

/-! ## Claim C4: the three-tier evidence persistence chain -/

/-- C4 counterexample: when every persistence tier fails at the initial
capture, the whole run aborts before the harvest — the navigation run is
not insulated from a single capture's exhaustion, refuting "an error which
does not abort the surrounding navigation run". -/
theorem evidence_exhaustion_aborts_run_cex :
    (getPageContent { baseEnv with oracle := (fun k _ => decide (k = PrimKind.shot)) }
        "https://site.example/" {}).1 =
      Except.error
        "Failed to get page content for https://site.example/: initial capture failed" ∧
      Ev.axTry ∉ (getPageContent
        { baseEnv with oracle := (fun k _ => decide (k = PrimKind.shot)) }
        "https://site.example/" {}).2.1 := by
  constructor
  · rfl
  · intro h
    revert h
    decide

/-- C4 (amended): persistence is a three-tier fallback chain. A record-tier
success returns the record reference at once; when the record tier fails and
the blob tier succeeds, the reference comes from the blob tier with no error
and the record failure is only a logged tier event; when the blob tier also
fails and the local-disk tier succeeds, the reference is the local path;
exhaustion of all three tiers is an error for that single capture. Such an
error is absorbed by the step loop for mid-plan captures — in the
time-indexed world where every tier fails exactly during the step's capture,
the step is marked failed yet the run completes successfully through the
harvest — but at the initial capture it propagates and aborts the run before
the harvest, and likewise at the final capture, whose exhaustion yields the
wrapped final-capture error with no harvest. -/
theorem evidence_fallback_chain_amended :
    (∀ (w : WEnv) (p : String) (u : Option String) (tags : List String)
      (meta : List (String × String)) (c : Nat),
      truthyS u = true → w.oracle .tierRecord c = true →
      saveScreenshot w p u tags meta c =
        (Except.ok (recordRef (screenshotFilename w.now u p)),
          [Ev.tier 1 true,
            Ev.saved tags meta (recordRef (screenshotFilename w.now u p))], c + 1)) ∧
    (∀ (w : WEnv) (p : String) (u : Option String) (tags : List String)
      (meta : List (String × String)) (c : Nat),
      truthyS u = true → w.oracle .tierRecord c = false →
      w.oracle .tierUpload (c + 1) = true → w.oracle .tierGetUrl (c + 2) = true →
      saveScreenshot w p u tags meta c =
        (Except.ok (blobRef (screenshotFilename w.now u p)),
          [Ev.tier 1 false, Ev.tier 2 true,
            Ev.saved tags meta (blobRef (screenshotFilename w.now u p))], c + 3)) ∧
    (∀ (w : WEnv) (p : String) (u : Option String) (tags : List String)
      (meta : List (String × String)) (c : Nat),
      truthyS u = true → w.oracle .tierRecord c = false →
      (w.oracle .tierUpload (c + 1) && w.oracle .tierGetUrl (c + 2)) = false →
      w.oracle .tierLocal (c + 3) = true →
      saveScreenshot w p u tags meta c =
        (Except.ok (localRef (screenshotFilename w.now u p)),
          [Ev.tier 1 false, Ev.tier 2 false, Ev.tier 3 true,
            Ev.saved tags meta (localRef (screenshotFilename w.now u p))], c + 4)) ∧
    (∀ (w : WEnv) (p : String) (u : Option String) (tags : List String)
      (meta : List (String × String)) (c : Nat),
      truthyS u = true → w.oracle .tierRecord c = false →
      (w.oracle .tierUpload (c + 1) && w.oracle .tierGetUrl (c + 2)) = false →
      w.oracle .tierLocal (c + 3) = false →
      saveScreenshot w p u tags meta c =
        (Except.error (), [Ev.tier 1 false, Ev.tier 2 false, Ev.tier 3 false], c + 4)) ∧
    (∀ (w : WEnv) (url : String) (opts : NavigationOptions),
      w.launchOk = true → w.gotoRes = .ok → (∀ t, w.oracle .shot t = true) →
      (∀ t, w.oracle .tierRecord t = false) → (∀ t, w.oracle .tierUpload t = false) →
      (∀ t, w.oracle .tierLocal t = false) →
      ∃ m evs c2, getPageContent w url opts = (Except.error m, evs, c2) ∧
        Ev.axTry ∉ evs) ∧
    ((getPageContent midExhaustEnv "https://a.example/" midPlanOpts).1 =
        Except.ok { axTree := some AxT.tree } ∧
      Ev.tier 3 false ∈ (getPageContent midExhaustEnv "https://a.example/" midPlanOpts).2.1 ∧
      Ev.stepFail 0 ∈ (getPageContent midExhaustEnv "https://a.example/" midPlanOpts).2.1 ∧
      Ev.axTry ∈ (getPageContent midExhaustEnv "https://a.example/" midPlanOpts).2.1) ∧
    ((getPageContent finalExhaustEnv "https://a.example/" {}).1 =
        Except.error
          "Failed to get page content for https://a.example/: final capture failed" ∧
      Ev.tier 3 false ∈ (getPageContent finalExhaustEnv "https://a.example/" {}).2.1 ∧
      Ev.axTry ∉ (getPageContent finalExhaustEnv "https://a.example/" {}).2.1) := by
  refine ⟨?_, ?_, ?_, ?_, ?_, ⟨rfl, by decide, by decide, by decide⟩,
    ⟨rfl, by decide, by decide⟩⟩
  · intro w p u tags meta c hu hr
    unfold saveScreenshot
    dsimp only
    simp [hu, hr]
  · intro w p u tags meta c hu hr hup hgu
    unfold saveScreenshot saveTier23
    dsimp only
    simp [hu, hr, hup, hgu]
  · intro w p u tags meta c hu hr hug hloc
    unfold saveScreenshot saveTier23
    dsimp only
    simp [hu, hr, hug, hloc]
  · intro w p u tags meta c hu hr hug hloc
    unfold saveScreenshot saveTier23
    dsimp only
    simp [hu, hr, hug, hloc]
  · intro w url opts hl hg h1 h2 h3 h5
    unfold getPageContent
    dsimp only
    rw [hl]
    simp only [if_true, ite_true]
    rw [hg]
    dsimp only
    rw [initialCapture_allFail w url (popupPhase w 0).2 h1 h2 h3 h5]
    dsimp only
    unfold gpcFail
    split
    · refine ⟨_, _, _, rfl, ?_⟩
      intro h
      simp at h
      rcases h with h | h
      · simp [popupPhase] at h
      · unfold initialCapture at h
        dsimp only at h
        rw [h1] at h
        simp only [ite_true, if_true] at h
        repeat' split at h
        all_goals simp at h
        all_goals exact axTry_not_in_saveScreenshot w _ _ _ _ _ h
    · refine ⟨_, _, _, rfl, ?_⟩
      intro h
      simp at h
      rcases h with h | h
      · simp [popupPhase] at h
      · unfold initialCapture at h
        dsimp only at h
        rw [h1] at h
        simp only [ite_true, if_true] at h
        repeat' split at h
        all_goals simp at h
        all_goals exact axTry_not_in_saveScreenshot w _ _ _ _ _ h

/-- C4 witness: the four tier outcomes at concrete worlds — a record-tier
success, the blob tier serving the reference after a record failure, the
local-disk tier serving it after both upload tiers fail, exhaustion as an
error — and an all-tiers-failing world whose initial capture aborts the run
before the harvest. -/
theorem evidence_fallback_chain_amended_witness :
    saveScreenshot baseEnv "p" (some "https://site.example/") ["t"] [] 0 =
      (Except.ok (recordRef (screenshotFilename "2024-01-02T03:04:05.678Z"
          (some "https://site.example/") "p")),
        [Ev.tier 1 true, Ev.saved ["t"] [] (recordRef (screenshotFilename
          "2024-01-02T03:04:05.678Z" (some "https://site.example/") "p"))], 1) ∧
    saveScreenshot { baseEnv with oracle := (fun k _ => decide (k ≠ PrimKind.tierRecord)) }
        "p" (some "https://site.example/") ["t"] [] 0 =
      (Except.ok (blobRef (screenshotFilename "2024-01-02T03:04:05.678Z"
          (some "https://site.example/") "p")),
        [Ev.tier 1 false, Ev.tier 2 true,
          Ev.saved ["t"] [] (blobRef (screenshotFilename "2024-01-02T03:04:05.678Z"
            (some "https://site.example/") "p"))], 3) ∧
    saveScreenshot { baseEnv with oracle := (fun k _ => decide (k = PrimKind.tierLocal)) }
        "p" (some "https://site.example/") ["t"] [] 0 =
      (Except.ok (localRef (screenshotFilename "2024-01-02T03:04:05.678Z"
          (some "https://site.example/") "p")),
        [Ev.tier 1 false, Ev.tier 2 false, Ev.tier 3 true,
          Ev.saved ["t"] [] (localRef (screenshotFilename "2024-01-02T03:04:05.678Z"
            (some "https://site.example/") "p"))], 4) ∧
    saveScreenshot { baseEnv with oracle := (fun k _ => decide (k = PrimKind.shot)) }
        "p" (some "https://site.example/") ["t"] [] 0 =
      (Except.error (), [Ev.tier 1 false, Ev.tier 2 false, Ev.tier 3 false], 4) ∧
    (∃ m evs c2,
      getPageContent { baseEnv with oracle := (fun k _ => decide (k = PrimKind.shot)) }
        "https://site.example/" {} = (Except.error m, evs, c2) ∧ Ev.axTry ∉ evs) :=
  ⟨evidence_fallback_chain_amended.1 baseEnv
      "p" (some "https://site.example/") ["t"] [] 0 rfl rfl,
    evidence_fallback_chain_amended.2.1
      { baseEnv with oracle := (fun k _ => decide (k ≠ PrimKind.tierRecord)) }
      "p" (some "https://site.example/") ["t"] [] 0 rfl rfl rfl rfl,
    evidence_fallback_chain_amended.2.2.1
      { baseEnv with oracle := (fun k _ => decide (k = PrimKind.tierLocal)) }
      "p" (some "https://site.example/") ["t"] [] 0 rfl rfl rfl rfl,
    evidence_fallback_chain_amended.2.2.2.1
      { baseEnv with oracle := (fun k _ => decide (k = PrimKind.shot)) }
      "p" (some "https://site.example/") ["t"] [] 0 rfl rfl rfl rfl,
    evidence_fallback_chain_amended.2.2.2.2.1
      { baseEnv with oracle := (fun k _ => decide (k = PrimKind.shot)) }
      "https://site.example/" {} rfl rfl (fun _ => rfl) (fun _ => rfl) (fun _ => rfl)
      (fun _ => rfl)⟩

/-! ## Claim C2: browser teardown -/

/-- C2 counterexample: on the navigation-failure path the `browser.close()`
inside the orchestrator's catch is unguarded — when close rejects, the
teardown error is re-raised to the caller (replacing the navigation error),
refuting "teardown errors are logged and never re-raised". -/
theorem teardown_error_reraised_cex :
    (handleMcpRequest { baseEnv with gotoRes := .errOther, closeOk := false }
        "https://site.example/" "p").1 =
      Except.error ("MCP processing failed: " ++ closeErrMsg) ∧
      (handleMcpRequest { baseEnv with gotoRes := .errOther, closeOk := false }
          "https://site.example/" "p").2.1 =
        [Ev.launch, Ev.navigate "https://site.example/", Ev.close] := by
  exact ⟨rfl, rfl⟩

/-- C2 (amended): the browser is closed exactly as many times as it is
launched, and at most once, on every exit path of a request — the
orchestration never exits with the browser still open; a close failure in
the request handler's final cleanup is logged and not re-raised (the
request still returns its result), but a close failure on the
navigation-error path propagates to the caller. -/
theorem teardown_once_per_request_amended :
    (∀ (w : WEnv) (url p : String),
      closes (handleMcpRequest w url p).2.1 = launches (handleMcpRequest w url p).2.1 ∧
        launches (handleMcpRequest w url p).2.1 ≤ 1) ∧
    (∀ (w : WEnv) (url p s : String),
      w.launchOk = true → w.gotoRes = .ok → (∀ t, w.oracle .shot t = true) →
      (∀ t, w.oracle .tierRecord t = true) → (∀ t, w.oracle .tierUpload t = true) →
      (∀ t, w.oracle .tierGetUrl t = true) → w.axRes = some (some AxT.tree) →
      w.interp = .text s → s ≠ "" → w.closeOk = false →
      (handleMcpRequest w url p).1 = Except.ok s ∧
        Ev.closeFailLog ∈ (handleMcpRequest w url p).2.1) := by
  constructor
  · intro w url p
    exact handleMcp_teardown_counts w url p
  · intro w url p s hl hg h1 h2 h3 h4 hax hint hs hc
    obtain ⟨pc, evs, c2, heq, _, _, _⟩ :=
      gpc_ok w url (decodeOptions (analyzeNavigationNeeds w.genReply)) hl hg h1 h2 h3 h4
        (some AxT.tree) hax
    unfold handleMcpRequest
    dsimp only
    rw [heq]
    dsimp only
    rw [hint]
    simp [hs, hc]

/-- C2 witness: the amended teardown property at concrete worlds — a full
count check on a failing-navigation world, and a successful request whose
close failure is only logged. -/
theorem teardown_once_per_request_amended_witness :
    (closes (handleMcpRequest { baseEnv with gotoRes := .errTimeout }
        "https://site.example/" "p").2.1 =
      launches (handleMcpRequest { baseEnv with gotoRes := .errTimeout }
        "https://site.example/" "p").2.1) ∧
    (handleMcpRequest { baseEnv with closeOk := false }
        "https://site.example/" "p").1 = Except.ok "answer" ∧
    Ev.closeFailLog ∈ (handleMcpRequest { baseEnv with closeOk := false }
        "https://site.example/" "p").2.1 :=
  ⟨(teardown_once_per_request_amended.1 { baseEnv with gotoRes := .errTimeout }
      "https://site.example/" "p").1,
    (teardown_once_per_request_amended.2 { baseEnv with closeOk := false }
        "https://site.example/" "p" "answer" rfl rfl (fun _ => rfl) (fun _ => rfl)
        (fun _ => rfl) (fun _ => rfl) rfl rfl (by decide) rfl).1,
    (teardown_once_per_request_amended.2 { baseEnv with closeOk := false }
        "https://site.example/" "p" "answer" rfl rfl (fun _ => rfl) (fun _ => rfl)
        (fun _ => rfl) (fun _ => rfl) rfl rfl (by decide) rfl).2⟩

/-! ## Claim C6: interpretation-phase error surfacing -/

/-- C6: once the run reaches the interpretation phase, blocked content is
surfaced as a distinct error naming the block reason (distinguishable from
the generic empty-response failure), an empty interpretation text yields the
sentinel string instead of an error, and any other text is returned as-is. -/
theorem interpretation_error_surfacing (w : WEnv) (url p : String)
    (hl : w.launchOk = true) (hg : w.gotoRes = .ok)
    (h1 : ∀ t, w.oracle .shot t = true) (h2 : ∀ t, w.oracle .tierRecord t = true)
    (h3 : ∀ t, w.oracle .tierUpload t = true) (h4 : ∀ t, w.oracle .tierGetUrl t = true)
    (hax : w.axRes = some (some AxT.tree)) :
    (∀ r, w.interp = .blocked r →
      (handleMcpRequest w url p).1 =
        Except.error
          ("MCP processing failed: Request blocked by Gemini due to " ++ r ++ ".")) ∧
    (w.interp = .text "" →
      (handleMcpRequest w url p).1 = Except.ok emptyResponseSentinel) ∧
    (∀ s, w.interp = .text s → s ≠ "" → (handleMcpRequest w url p).1 = Except.ok s) ∧
    (∀ r, ("MCP processing failed: Request blocked by Gemini due to " ++ r ++ ".") ≠
      "MCP processing failed: Gemini API returned an empty response.") := by
  obtain ⟨pc, evs, c2, heq, _, _, _⟩ :=
    gpc_ok w url (decodeOptions (analyzeNavigationNeeds w.genReply)) hl hg h1 h2 h3 h4
      (some AxT.tree) hax
  refine ⟨?_, ?_, ?_, ?_⟩
  · intro r hint
    unfold handleMcpRequest
    dsimp only
    rw [heq]
    dsimp only
    rw [hint]
  · intro hint
    unfold handleMcpRequest
    dsimp only
    rw [heq]
    dsimp only
    rw [hint]
    rfl
  · intro s hint hs
    unfold handleMcpRequest
    dsimp only
    rw [heq]
    dsimp only
    rw [hint]
    simp [hs]
  · intro r heq2
    have hd := congrArg String.data heq2
    simp only [String.data_append, List.append_assoc] at hd
    have h23 := congrArg (fun l : List Char => l[23]?) hd
    simp only at h23
    rw [List.getElem?_append_left
      (by decide :
        (23 : Nat) <
          "MCP processing failed: Request blocked by Gemini due to ".data.length)] at h23
    revert h23
    decide

/-- C6 witness: the three interpretation outcomes at concrete worlds — a
blocked response surfaces the distinct blocked error, an empty text returns
the sentinel, and a normal text is returned unchanged. -/
theorem interpretation_error_surfacing_witness :
    (handleMcpRequest { baseEnv with interp := .blocked "SAFETY" }
        "https://site.example/" "p").1 =
      Except.error
        ("MCP processing failed: Request blocked by Gemini due to " ++ "SAFETY" ++ ".") ∧
    (handleMcpRequest { baseEnv with interp := .text "" }
        "https://site.example/" "p").1 = Except.ok emptyResponseSentinel ∧
    (handleMcpRequest baseEnv "https://site.example/" "p").1 = Except.ok "answer" :=
  ⟨(interpretation_error_surfacing { baseEnv with interp := .blocked "SAFETY" }
      "https://site.example/" "p" rfl rfl (fun _ => rfl) (fun _ => rfl) (fun _ => rfl)
      (fun _ => rfl) rfl).1 "SAFETY" rfl,
    (interpretation_error_surfacing { baseEnv with interp := .text "" }
      "https://site.example/" "p" rfl rfl (fun _ => rfl) (fun _ => rfl) (fun _ => rfl)
      (fun _ => rfl) rfl).2.1 rfl,
    (interpretation_error_surfacing baseEnv "https://site.example/" "p" rfl rfl
      (fun _ => rfl) (fun _ => rfl) (fun _ => rfl) (fun _ => rfl) rfl).2.2.1 "answer"
      rfl (by decide)⟩
